import Mathlib

/-!
# Makernet: the SmallMailbox synchronisation protocol

A shallow embedding of `src/src/Mailbox.cpp` (class `SmallMailbox`) and the
properties of its replication state machine.

Modelling conventions
* A byte buffer (`uint8_t *`) is `Option (List Nat)`: `none` is the `NULL`
  pointer, `some bytes` is the memory the pointer designates.
* A call whose body would dereference `NULL`, or touch bytes beyond the end of
  the designated memory, has no defined behaviour in C++; such a call returns
  `none`.  Every defined call returns `some result`.
* `uint32_t` values are natural numbers below `2 ^ 32`.
* The observer callback is recorded as a log of the change flags it was
  invoked with; the callback is assumed not to call back into the mailbox.
* Debug printing (`DPR`, `DLN`, `DPF`, `hexPrint`) has no effect on the state
  and is omitted.
-/

namespace Makernet

/-- The local role held in `Makernet.network.role`: `Network::master` is the
controller, `Network::slave` the peripheral. -/
inductive Role where
  | master
  | slave
  deriving DecidableEq, Repr

/-- Build and platform parameters that `Mailbox.cpp` does not fix itself:
the switch `API_CHECK`, the bit width of `size_t`, and the byte order in which
the platform lays out a `uint32_t`. -/
structure Platform where
  apiCheck : Bool
  sizeBits : Nat
  bigEndian : Bool
  deriving DecidableEq, Repr

/-- The enumeration `SmallMailboxMessage::Command` (underlying type `uint8_t`). -/
inductive Command where
  | SEND_VALUE
  | ACK_VALUE
  | SEND_VALUE_CHANGE
  deriving DecidableEq, Repr

/-- The enumerator values: declaration order, starting at zero. -/
def Command.code : Command → Nat
  | .SEND_VALUE => 0
  | .ACK_VALUE => 1
  | .SEND_VALUE_CHANGE => 2

/-- The value of `sizeof( SmallMailboxMessage )`: one command byte and a packed
32-bit value. -/
def sizeofSmallMailboxMessage : Nat := 5

/-- The four bytes of a `uint32_t` in the platform byte order. -/
def valueBytes (p : Platform) (v : Nat) : List Nat :=
  if p.bigEndian then
    [v / 16777216 % 256, v / 65536 % 256, v / 256 % 256, v % 256]
  else
    [v % 256, v / 256 % 256, v / 65536 % 256, v / 16777216 % 256]

/-- The `uint32_t` held in four bytes, in the platform byte order. -/
def bytesValue (p : Platform) (b0 b1 b2 b3 : Nat) : Nat :=
  if p.bigEndian then
    b0 * 16777216 + b1 * 65536 + b2 * 256 + b3
  else
    b0 + b1 * 256 + b2 * 65536 + b3 * 16777216

/-- Read `msg->command`: the byte at offset 0. -/
def loadCommand (buf : List Nat) : Nat :=
  buf.getD 0 0

/-- Read `msg->value`: the bytes at offsets 1 to 4. -/
def loadValue (p : Platform) (buf : List Nat) : Nat :=
  bytesValue p (buf.getD 1 0) (buf.getD 2 0) (buf.getD 3 0) (buf.getD 4 0)

/-- Write `msg->command = c`: the byte at offset 0. -/
def storeCommand (buf : List Nat) (c : Command) : List Nat :=
  buf.set 0 c.code

/-- Write `msg->value = v`: the bytes at offsets 1 to 4. -/
def storeValue (p : Platform) (buf : List Nat) (v : Nat) : List Nat :=
  let bs := valueBytes p v
  (((buf.set 1 (bs.getD 0 0)).set 2 (bs.getD 1 0)).set 3 (bs.getD 2 0)).set 4 (bs.getD 3 0)

/-- The memory image of a `SmallMailboxMessage` with the given command and
value: the five bytes that travel on the wire. -/
def wire (p : Platform) (c : Command) (v : Nat) : List Nat :=
  c.code :: valueBytes p v

/-- The test `size < sizeof( SmallMailboxMessage )` with `int size`: the usual
arithmetic conversions turn `size` into a `size_t` before comparing. -/
def sizeBelowMessage (p : Platform) (size : Int) : Bool :=
  decide ((size % (2 : Int) ^ p.sizeBits).toNat < sizeofSmallMailboxMessage)

/-- Modelled from the spec: the class of `retryTimer` is not in src; section 4.1
describes it.  `pending` records a `trigger()` not yet followed by a `reset()`,
`lastReset` the time of the last `reset()`, `cooldown` the retry interval. -/
structure RetryTimer where
  pending : Bool
  lastReset : Nat
  cooldown : Nat
  deriving DecidableEq, Repr

/-- Modelled from the spec: `trigger()` is not in src; it arms the timer so
that the very next readiness check succeeds. -/
def RetryTimer.trigger (t : RetryTimer) : RetryTimer :=
  { t with pending := true }

/-- Modelled from the spec: `reset()` is not in src; it records "just sent",
which starts the cooldown. -/
def RetryTimer.reset (t : RetryTimer) (now : Nat) : RetryTimer :=
  { t with pending := false, lastReset := now }

/-- Modelled from the spec: `ready()` is not in src; it is true iff the cooldown
has elapsed since the last `reset()` or a `trigger()` is pending. -/
def RetryTimer.ready (t : RetryTimer) (now : Nat) : Bool :=
  t.pending || decide (t.lastReset + t.cooldown ≤ now)

/-- The state of a `SmallMailbox`.  `contents` is the member `__contents`;
`observer` tells whether the member `observer` is non-null. -/
structure SmallMailbox where
  flags : Nat
  contents : Nat
  synchronized : Bool
  callerChanged : Bool
  changeTrigger : Bool
  retryTimer : RetryTimer
  observer : Bool
  deriving DecidableEq, Repr

/-- The constructor `SmallMailbox::SmallMailbox`.  Its body zeroes the
contents and sets `synchronized` and `callerChanged`; the members it does not
assign (`changeTrigger`, `retryTimer`, `observer`) start from the class
declaration, which is not in src, and are parameters here. -/
def SmallMailbox.construct (configFlags : Nat) (changeTrigger0 : Bool)
    (retryTimer0 : RetryTimer) (observer0 : Bool) : SmallMailbox :=
  { flags := configFlags
    contents := 0
    synchronized := true
    callerChanged := false
    changeTrigger := changeTrigger0
    retryTimer := retryTimer0
    observer := observer0 }

/-- The method `SmallMailbox::busReset`. -/
def SmallMailbox.busReset (s : SmallMailbox) : SmallMailbox :=
  let s1 := { s with retryTimer := s.retryTimer.trigger }
  let s2 := if s1.callerChanged then { s1 with synchronized := false }
            else { s1 with synchronized := true }
  { s2 with changeTrigger := false }

/-- The method `SmallMailbox::hasPendingChanges`; `now` is the clock reading
the retry timer sees. -/
def SmallMailbox.hasPendingChanges (s : SmallMailbox) (now : Nat) : Int :=
  if !s.retryTimer.ready now then 0
  else if !s.synchronized then 1 else 0

/-- What `generateMessage` leaves behind: the returned `int`, the mailbox and
the buffer memory. -/
structure GenerateResult where
  ret : Int
  mailbox : SmallMailbox
  buffer : Option (List Nat)
  deriving DecidableEq, Repr

/-- What `handleMessage` leaves behind: the returned `int`, the mailbox, the
buffer memory, and the change flags the observer was invoked with, in order. -/
structure HandleResult where
  ret : Int
  mailbox : SmallMailbox
  buffer : Option (List Nat)
  observed : List Bool
  deriving DecidableEq, Repr

/-- The method `SmallMailbox::generateMessage`; `now` is the clock reading the
retry timer sees. -/
def SmallMailbox.generateMessage (p : Platform) (s : SmallMailbox)
    (buffer : Option (List Nat)) (size : Int) (now : Nat) : Option GenerateResult :=
  if p.apiCheck && sizeBelowMessage p size then
    some { ret := -1, mailbox := s, buffer := buffer }
  else if p.apiCheck && buffer.isNone then
    some { ret := -2, mailbox := s, buffer := buffer }
  else
    match buffer with
    | none => none
    | some buf =>
      if buf.length < sizeofSmallMailboxMessage then none
      else
        let buf1 :=
          if s.changeTrigger && s.callerChanged then
            storeCommand buf Command.SEND_VALUE_CHANGE
          else
            storeCommand buf Command.SEND_VALUE
        let buf2 := storeValue p buf1 s.contents
        let s1 := { s with retryTimer := s.retryTimer.reset now }
        some { ret := sizeofSmallMailboxMessage, mailbox := s1, buffer := some buf2 }

/-- The method `SmallMailbox::handleMessage`; `role` is `Makernet.network.role`. -/
def SmallMailbox.handleMessage (p : Platform) (role : Role) (s : SmallMailbox)
    (buffer : Option (List Nat)) (size : Int) : Option HandleResult :=
  if p.apiCheck && sizeBelowMessage p size then
    some { ret := -1, mailbox := s, buffer := buffer, observed := [] }
  else if p.apiCheck && buffer.isNone then
    some { ret := -2, mailbox := s, buffer := buffer, observed := [] }
  else
    match buffer with
    | none => none
    | some buf =>
      if buf.length < sizeofSmallMailboxMessage then none
      else if loadCommand buf = Command.SEND_VALUE.code ∨
          loadCommand buf = Command.SEND_VALUE_CHANGE.code then
        if s.callerChanged ∧ role = Role.master then
          -- contention on the master: the early `return` of the inner branch
          some { ret := sizeofSmallMailboxMessage
                 mailbox := { s with synchronized := false }
                 buffer := some (storeCommand buf Command.ACK_VALUE)
                 observed := [] }
        else
          -- the normal update, also reached by the slave under contention
          let s1 := { s with contents := loadValue p buf }
          let s2 := { s1 with synchronized := true, callerChanged := false }
          let s3 :=
            if loadCommand buf = Command.SEND_VALUE_CHANGE.code then
              { s2 with changeTrigger := true }
            else s2
          let observed := if s3.observer then [s3.changeTrigger] else []
          let s4 := { s3 with changeTrigger := false }
          some { ret := sizeofSmallMailboxMessage
                 mailbox := s4
                 buffer := some (storeCommand buf Command.ACK_VALUE)
                 observed := observed }
      else if loadCommand buf = Command.ACK_VALUE.code then
        let s1 := if loadValue p buf = s.contents then { s with synchronized := true } else s
        some { ret := 0
               mailbox := { s1 with changeTrigger := false }
               buffer := some buf
               observed := [] }
      else
        some { ret := 1, mailbox := s, buffer := some buf, observed := [] }

/-- The method `SmallMailbox::trigger`. -/
def SmallMailbox.trigger (s : SmallMailbox) : SmallMailbox :=
  { s with
    synchronized := false
    callerChanged := true
    changeTrigger := true
    retryTimer := s.retryTimer.trigger }

/-- The method `SmallMailbox::setLong`. -/
def SmallMailbox.setLong (s : SmallMailbox) (v : Nat) : SmallMailbox :=
  { s with
    contents := v
    retryTimer := s.retryTimer.trigger
    synchronized := false
    callerChanged := true
    changeTrigger := true }

/-- The method `SmallMailbox::getLong`. -/
def SmallMailbox.getLong (s : SmallMailbox) : Nat :=
  s.contents

/-- The method `SmallMailbox::getLongSigned`: the same 32 bits read as a
two's-complement number. -/
def SmallMailbox.getLongSigned (s : SmallMailbox) : Int :=
  if s.contents < 2147483648 then (s.contents : Int) else (s.contents : Int) - 4294967296

/-- A 16-bit little-endian platform with the API checks on. -/
def avr : Platform := { apiCheck := true, sizeBits := 16, bigEndian := false }

/-- A timer with a 100-tick cooldown, never triggered, last reset at time 0. -/
def timer0 : RetryTimer := { pending := false, lastReset := 0, cooldown := 100 }

/-- A freshly constructed mailbox with an observer attached. -/
def fresh : SmallMailbox := SmallMailbox.construct 0 false timer0 true

/-! ### Sequences of calls on one mailbox -/

/-- One call a client or the dispatcher can make on a `SmallMailbox`, with its
arguments. -/
inductive Op where
  | setLong (v : Nat)
  | trigger
  | generateMessage (buffer : Option (List Nat)) (size : Int) (now : Nat)
  | busReset
  | handleMessage (buffer : Option (List Nat)) (size : Int)
  deriving DecidableEq, Repr

/-- The mailbox after one call; `none` when the call has no defined behaviour. -/
def step (p : Platform) (role : Role) (s : SmallMailbox) : Op → Option SmallMailbox
  | Op.setLong v => some (s.setLong v)
  | Op.trigger => some s.trigger
  | Op.generateMessage buffer size now =>
    (s.generateMessage p buffer size now).map GenerateResult.mailbox
  | Op.busReset => some s.busReset
  | Op.handleMessage buffer size =>
    (s.handleMessage p role buffer size).map HandleResult.mailbox

/-- The mailbox after a sequence of calls made in order on a device whose role
is `role`. -/
def run (p : Platform) (role : Role) : SmallMailbox → List Op → Option SmallMailbox
  | s, [] => some s
  | s, op :: ops =>
    match step p role s op with
    | none => none
    | some s1 => run p role s1 ops

/-- The argument of the last `setLong` in a sequence of calls, or `v` when the
sequence has none. -/
def lastSetLong (v : Nat) : List Op → Nat
  | [] => v
  | Op.setLong w :: ops => lastSetLong w ops
  | _ :: ops => lastSetLong v ops

/-! ### The I2C datalink (`src/src/I2CDatalink.cpp`) -/

/-- The value of `MAX_MAKERNET_FRAME_LENGTH` (`Datalink.h`). -/
def MAX_MAKERNET_FRAME_LENGTH : Nat := 255

/-- The members of the datalink object that `I2CDatalink.cpp` touches:
the frame buffer of `Datalink.h` and the size of the staged reply. -/
structure I2CDatalink where
  frameBuffer : List Nat
  returnFrameSize : Int
  address : Nat
  deriving DecidableEq, Repr

/-- The methods of `Makernet.network` that the datalink calls.  Their bodies
are not in src, so they are parameters: each may change the network state `σ`
and, through the global `_datalink`, the datalink object. -/
structure NetworkOps (σ : Type) where
  handleFrame : σ → I2CDatalink → Nat → σ × I2CDatalink
  pollFrame : σ → I2CDatalink → Nat → σ × Int × I2CDatalink

/-- A call the datalink made into the network layer, with its size argument. -/
inductive NetCall where
  | handleFrame (size : Nat)
  | pollFrame (capacity : Nat)
  deriving DecidableEq, Repr

/-- What `I2CDatalink_receiveEvent` leaves behind: the network state, the
datalink object, the counter `receiveEventCount`, and the calls it made into
the network layer, in order. -/
structure ReceiveResult (σ : Type) where
  net : σ
  datalink : I2CDatalink
  receiveEventCount : Int
  calls : List NetCall

/-- The callback `I2CDatalink_receiveEvent`; `rx` holds the bytes that
`Wire.read()` delivers while `Wire.available() > 0`. -/
def I2CDatalink_receiveEvent {σ : Type} (network : NetworkOps σ) (st : σ) (d : I2CDatalink)
    (receiveEventCount : Int) (rx : List Nat) (howMany : Int) : ReceiveResult σ :=
  if howMany < 1 then
    { net := st, datalink := d, receiveEventCount := receiveEventCount, calls := [] }
  else
    let count := receiveEventCount + 1
    let frame := rx.take MAX_MAKERNET_FRAME_LENGTH
    let p := frame.length
    let d1 := { d with frameBuffer := frame ++ d.frameBuffer.drop p }
    let d2 := { d1 with returnFrameSize := 0 }
    let handled := network.handleFrame st d2 p
    if handled.2.returnFrameSize > 0 then
      { net := handled.1, datalink := handled.2, receiveEventCount := count
        calls := [NetCall.handleFrame p] }
    else
      let polled := network.pollFrame handled.1 handled.2 MAX_MAKERNET_FRAME_LENGTH
      let d3 : I2CDatalink := { polled.2.2 with returnFrameSize := polled.2.1 }
      let d4 : I2CDatalink :=
        if d3.returnFrameSize = 0 then d3
        else if d3.returnFrameSize > 0 then d3
        else { d3 with returnFrameSize := 0 }
      { net := polled.1, datalink := d4, receiveEventCount := count
        calls := [NetCall.handleFrame p, NetCall.pollFrame MAX_MAKERNET_FRAME_LENGTH] }

/-- The argument `inBuffer` of `sendFrame`: either the datalink's own
`frameBuffer` or other memory holding the given bytes. -/
inductive FrameRef where
  | own
  | external (bytes : List Nat)
  deriving DecidableEq, Repr

/-- The bytes a `FrameRef` designates. -/
def FrameRef.bytes (d : I2CDatalink) : FrameRef → List Nat
  | FrameRef.own => d.frameBuffer
  | FrameRef.external bytes => bytes

/-- What `I2CDatalink::sendFrame` leaves behind: the returned `int`, the
network state, the datalink object, the bytes handed to `Wire.write` in order,
the bytes its `hexPrint( dDATALINK, inBuffer, len )` shows as sent, and the
calls made into the network layer. -/
structure SendResult (σ : Type) where
  ret : Int
  net : σ
  datalink : I2CDatalink
  written : List Nat
  printed : List Nat
  calls : List NetCall

/-- The method `I2CDatalink::sendFrame`.  `controllerSupport` is the switch
`CONTROLLER_SUPPORT`, `charSigned` tells whether plain `char` is signed on the
platform, and `reply` holds the bytes that `Wire.read()` delivers after
`Wire.requestFrom`.  The count `actual` and the result of
`Wire.endTransmission` feed diagnostics only. -/
def I2CDatalink.sendFrame {σ : Type} (controllerSupport charSigned : Bool) (role : Role)
    (network : NetworkOps σ) (st : σ) (d : I2CDatalink) (inBuffer : FrameRef) (len : Nat)
    (reply : List Nat) : SendResult σ :=
  if role = Role.slave then
    { ret := 0, net := st, datalink := { d with returnFrameSize := len }
      written := [], printed := [], calls := [] }
  else if controllerSupport ∧ role = Role.master then
    let printed := (inBuffer.bytes d).take len
    let written := (List.range len).map (fun i => d.frameBuffer.getD i 0)
    let frame := reply.take MAX_MAKERNET_FRAME_LENGTH
    let d1 := { d with frameBuffer := frame ++ d.frameBuffer.drop frame.length }
    let count := reply.length
    let ffCount := if charSigned then 0 else reply.count 255
    if ffCount ≠ count then
      let handled := network.handleFrame st d1 count
      { ret := 0, net := handled.1, datalink := handled.2
        written := written, printed := printed, calls := [NetCall.handleFrame count] }
    else
      { ret := 0, net := st, datalink := d1
        written := written, printed := printed, calls := [] }
  else
    { ret := 0, net := st, datalink := d, written := [], printed := [], calls := [] }

/-- A datalink whose 255-byte frame buffer starts with 1, 2, 3. -/
def datalink0 : I2CDatalink :=
  { frameBuffer := [1, 2, 3] ++ List.replicate 252 0, returnFrameSize := 0, address := 0 }

/-- A network layer that stages a 5-byte reply when the frame it handles has
at least five bytes, and has nothing to send when polled. -/
def network0 : NetworkOps Unit :=
  { handleFrame := fun st d size =>
      (st, if 5 ≤ size then { d with returnFrameSize := 5 } else d)
    pollFrame := fun st d _ => (st, 0, d) }

open SmallMailbox

/-! ## Auxiliary facts about the wire layout and the two message methods -/

theorem sizeBelowMessage_false (p : Platform) (size : Int) (h5 : 5 ≤ size)
    (hw : size < (2 : Int) ^ p.sizeBits) : sizeBelowMessage p size = false := by
  unfold sizeBelowMessage sizeofSmallMailboxMessage
  rw [Int.emod_eq_of_lt (by omega) hw]
  simp
  omega

theorem exists_five (buf : List Nat) (h : 5 ≤ buf.length) :
    ∃ b0 b1 b2 b3 b4 rest, buf = b0 :: b1 :: b2 :: b3 :: b4 :: rest := by
  match buf, h with
  | b0 :: b1 :: b2 :: b3 :: b4 :: rest, _ => exact ⟨b0, b1, b2, b3, b4, rest, rfl⟩

theorem loadValue_wire (p : Platform) (c : Command) (v : Nat) (rest : List Nat) (hv : v < 2 ^ 32) :
    loadValue p (wire p c v ++ rest) = v := by
  unfold loadValue wire bytesValue valueBytes
  cases p.bigEndian <;> simp <;> omega

theorem loadCommand_wire (p : Platform) (c : Command) (v : Nat) (rest : List Nat) :
    loadCommand (wire p c v ++ rest) = c.code := by
  simp [loadCommand, wire]

theorem wire_length (p : Platform) (c : Command) (v : Nat) : (wire p c v).length = 5 := by
  unfold wire valueBytes
  cases p.bigEndian <;> simp

theorem generateMessage_ok (p : Platform) (s : SmallMailbox) (buf : List Nat) (size : Int)
    (now : Nat) (h5 : 5 ≤ size) (hw : size < (2 : Int) ^ p.sizeBits) (hlen : 5 ≤ buf.length) :
    generateMessage p s (some buf) size now =
      some { ret := 5
             mailbox := { s with retryTimer := s.retryTimer.reset now }
             buffer := some (wire p (if s.changeTrigger && s.callerChanged then
                 Command.SEND_VALUE_CHANGE else Command.SEND_VALUE) s.contents ++ buf.drop 5) } := by
  obtain ⟨b0, b1, b2, b3, b4, rest, rfl⟩ := exists_five buf hlen
  unfold generateMessage
  rw [sizeBelowMessage_false p size h5 hw]
  cases hc : (s.changeTrigger && s.callerChanged) <;>
    cases hb : p.bigEndian <;>
    simp [sizeofSmallMailboxMessage, storeCommand, storeValue, wire, valueBytes, hb]

theorem storeCommand_wire (p : Platform) (c c' : Command) (v : Nat) (rest : List Nat) :
    storeCommand (wire p c v ++ rest) c' = wire p c' v ++ rest := by
  simp [storeCommand, wire]

theorem loadCommand_storeCommand (buf : List Nat) (c : Command) (hlen : 5 ≤ buf.length) :
    loadCommand (storeCommand buf c) = c.code := by
  obtain ⟨b0, b1, b2, b3, b4, rest, rfl⟩ := exists_five buf hlen
  simp [loadCommand, storeCommand]

theorem loadValue_storeCommand (p : Platform) (buf : List Nat) (c : Command)
    (hlen : 5 ≤ buf.length) : loadValue p (storeCommand buf c) = loadValue p buf := by
  obtain ⟨b0, b1, b2, b3, b4, rest, rfl⟩ := exists_five buf hlen
  simp [loadValue, storeCommand]

theorem handleMessage_send_master (p : Platform) (s : SmallMailbox) (buf : List Nat)
    (size : Int) (h5 : 5 ≤ size) (hw : size < (2 : Int) ^ p.sizeBits) (hlen : 5 ≤ buf.length)
    (hc : loadCommand buf = Command.SEND_VALUE.code ∨
      loadCommand buf = Command.SEND_VALUE_CHANGE.code)
    (hcc : s.callerChanged = true) :
    handleMessage p Role.master s (some buf) size =
      some { ret := 5
             mailbox := { s with synchronized := false }
             buffer := some (storeCommand buf Command.ACK_VALUE)
             observed := [] } := by
  unfold handleMessage
  rw [sizeBelowMessage_false p size h5 hw]
  have hl : ¬ buf.length < sizeofSmallMailboxMessage := by
    unfold sizeofSmallMailboxMessage; omega
  simp [hlen, hc, hcc, sizeofSmallMailboxMessage]

theorem handleMessage_send_accept (p : Platform) (role : Role) (s : SmallMailbox)
    (buf : List Nat) (size : Int) (h5 : 5 ≤ size) (hw : size < (2 : Int) ^ p.sizeBits)
    (hlen : 5 ≤ buf.length)
    (hc : loadCommand buf = Command.SEND_VALUE.code ∨
      loadCommand buf = Command.SEND_VALUE_CHANGE.code)
    (hacc : s.callerChanged = false ∨ role = Role.slave) :
    handleMessage p role s (some buf) size =
      some { ret := 5
             mailbox := { s with
               contents := loadValue p buf
               synchronized := true
               callerChanged := false
               changeTrigger := false }
             buffer := some (storeCommand buf Command.ACK_VALUE)
             observed :=
               if s.observer then
                 [decide (loadCommand buf = Command.SEND_VALUE_CHANGE.code) || s.changeTrigger]
               else [] } := by
  unfold handleMessage
  rw [sizeBelowMessage_false p size h5 hw]
  have hl : ¬ buf.length < sizeofSmallMailboxMessage := by
    unfold sizeofSmallMailboxMessage; omega
  have hg : ¬ (s.callerChanged = true ∧ role = Role.master) := by
    rcases hacc with h | h
    · simp [h]
    · simp [h]
  simp only [Bool.and_false, Bool.false_eq_true, if_false]
  rw [if_neg hl, if_pos hc, if_neg hg]
  by_cases h2 : loadCommand buf = Command.SEND_VALUE_CHANGE.code
  · cases ho : s.observer <;> simp [h2, ho, sizeofSmallMailboxMessage]
  · cases ho : s.observer <;> simp [h2, ho, sizeofSmallMailboxMessage]

theorem handleMessage_ack (p : Platform) (role : Role) (s : SmallMailbox)
    (buf : List Nat) (size : Int) (h5 : 5 ≤ size) (hw : size < (2 : Int) ^ p.sizeBits)
    (hlen : 5 ≤ buf.length) (hc : loadCommand buf = Command.ACK_VALUE.code) :
    handleMessage p role s (some buf) size =
      some { ret := 0
             mailbox := { s with
               synchronized := if loadValue p buf = s.contents then true else s.synchronized
               changeTrigger := false }
             buffer := some buf
             observed := [] } := by
  unfold handleMessage
  rw [sizeBelowMessage_false p size h5 hw]
  have hl : ¬ buf.length < sizeofSmallMailboxMessage := by
    unfold sizeofSmallMailboxMessage; omega
  have h0 : ¬ (loadCommand buf = Command.SEND_VALUE.code ∨
      loadCommand buf = Command.SEND_VALUE_CHANGE.code) := by
    rw [hc]; simp [Command.code]
  simp only [Bool.and_false, Bool.false_eq_true, if_false]
  rw [if_neg hl, if_neg h0, if_pos hc]
  by_cases hv : loadValue p buf = s.contents <;> simp [hv]

/-! ## The round trip and the end-to-end exchange -/

/-- C1 (round trip): for every mailbox state and every 32-bit `v`, after
`setLong v`, a `generateMessage` into a non-null buffer of capacity at least 5
and a `handleMessage` on an `ACK_VALUE` message carrying the value that was
generated, `synchronized` is true and `getLong` returns `v`. -/
theorem round_trip_setLong_generate_ack (p : Platform) (role : Role) (s : SmallMailbox)
    (v : Nat) (buf rest : List Nat) (size ackSize : Int) (now : Nat)
    (hv : v < 2 ^ 32)
    (h5 : 5 ≤ size) (hw : size < (2 : Int) ^ p.sizeBits) (hlen : 5 ≤ buf.length)
    (h5a : 5 ≤ ackSize) (hwa : ackSize < (2 : Int) ^ p.sizeBits) :
    ∃ g out h,
      generateMessage p (s.setLong v) (some buf) size now = some g ∧
      g.buffer = some out ∧
      handleMessage p role g.mailbox
        (some (wire p Command.ACK_VALUE (loadValue p out) ++ rest)) ackSize = some h ∧
      h.mailbox.synchronized = true ∧ h.mailbox.getLong = v := by
  have hacklen : ∀ a, 5 ≤ (wire p Command.ACK_VALUE a ++ rest).length := by
    intro a; rw [List.length_append, wire_length]; omega
  refine ⟨_, _, _, generateMessage_ok p (s.setLong v) buf size now h5 hw hlen, rfl,
    handleMessage_ack p role _ _ ackSize h5a hwa (hacklen _) (loadCommand_wire p _ _ rest), ?_, ?_⟩
  · have hval : (s.setLong v).contents = v := rfl
    simp only [hval]
    rw [loadValue_wire p _ v _ hv, loadValue_wire p _ v _ hv]
    simp
  · rfl

/-- C1 at a concrete input: value 42 on the 16-bit little-endian platform. -/
theorem round_trip_setLong_generate_ack_witness :
    ∃ g out h,
      generateMessage avr (fresh.setLong 42) (some [0, 0, 0, 0, 0]) 5 7 = some g ∧
      g.buffer = some out ∧
      handleMessage avr Role.master g.mailbox
        (some (wire avr Command.ACK_VALUE (loadValue avr out) ++ [])) 5 = some h ∧
      h.mailbox.synchronized = true ∧ h.mailbox.getLong = 42 :=
  round_trip_setLong_generate_ack avr Role.master fresh 42 [0, 0, 0, 0, 0] [] 5 5 7
    (by decide) (by decide) (by simp [avr]) (by decide) (by decide) (by simp [avr])

/-- C2 (end-to-end exchange): `P` is a freshly constructed peripheral mailbox
with an observer, `C` a controller mailbox.  After `C.setLong v`,
`C.generateMessage` returns 5 and emits `SEND_VALUE_CHANGE` carrying `v`;
`P.handleMessage` on that message returns 5, leaves `ACK_VALUE` carrying `v`
as the reply and invokes the observer exactly once, with the change flag true;
`C.handleMessage` on that reply makes `C` synchronized.  At the end both hold
`v` and both are synchronized. -/
theorem end_to_end_exchange (p : Platform) (v : Nat) (configFlags : Nat)
    (changeTrigger0 : Bool) (retryTimer0 : RetryTimer) (C : SmallMailbox)
    (bufC restP restC : List Nat) (sizeGen sizeP sizeAck : Int) (now : Nat)
    (hv : v < 2 ^ 32)
    (hg5 : 5 ≤ sizeGen) (hgw : sizeGen < (2 : Int) ^ p.sizeBits) (hlen : 5 ≤ bufC.length)
    (hp5 : 5 ≤ sizeP) (hpw : sizeP < (2 : Int) ^ p.sizeBits)
    (ha5 : 5 ≤ sizeAck) (haw : sizeAck < (2 : Int) ^ p.sizeBits) :
    ∃ g r a,
      generateMessage p (C.setLong v) (some bufC) sizeGen now = some g ∧
      g.ret = 5 ∧
      g.buffer = some (wire p Command.SEND_VALUE_CHANGE v ++ bufC.drop 5) ∧
      handleMessage p Role.slave
        (SmallMailbox.construct configFlags changeTrigger0 retryTimer0 true)
        (some (wire p Command.SEND_VALUE_CHANGE v ++ restP)) sizeP = some r ∧
      r.ret = 5 ∧
      r.buffer = some (wire p Command.ACK_VALUE v ++ restP) ∧
      r.observed = [true] ∧
      handleMessage p Role.master g.mailbox
        (some (wire p Command.ACK_VALUE v ++ restC)) sizeAck = some a ∧
      a.mailbox.synchronized = true ∧ a.mailbox.getLong = v ∧
      r.mailbox.synchronized = true ∧ r.mailbox.getLong = v := by
  have hmsglen : ∀ c rest, 5 ≤ (wire p c v ++ rest).length := by
    intro c rest; rw [List.length_append, wire_length]; omega
  refine ⟨_, _, _, generateMessage_ok p (C.setLong v) bufC sizeGen now hg5 hgw hlen, rfl, ?_,
    handleMessage_send_accept p Role.slave _ _ sizeP hp5 hpw (hmsglen _ restP)
      (Or.inr (loadCommand_wire p _ v restP)) (Or.inr rfl), rfl, ?_, ?_,
    handleMessage_ack p Role.master _ _ sizeAck ha5 haw (hmsglen _ restC)
      (loadCommand_wire p _ v restC), ?_, ?_, rfl, ?_⟩
  · simp [SmallMailbox.setLong]
  · simp [storeCommand_wire]
  · simp [SmallMailbox.construct, loadCommand_wire]
  · simp [loadValue_wire p _ v _ hv, SmallMailbox.setLong]
  · simp [SmallMailbox.getLong, SmallMailbox.setLong]
  · simp [SmallMailbox.getLong, loadValue_wire p _ v _ hv]

/-- C2 at the value 42 of the scenario. -/
theorem end_to_end_exchange_witness :
    ∃ g r a,
      generateMessage avr (fresh.setLong 42) (some [9, 9, 9, 9, 9, 9]) 6 3 = some g ∧
      g.ret = 5 ∧
      g.buffer = some (wire avr Command.SEND_VALUE_CHANGE 42 ++ [9, 9, 9, 9, 9, 9].drop 5) ∧
      handleMessage avr Role.slave (SmallMailbox.construct 0 false timer0 true)
        (some (wire avr Command.SEND_VALUE_CHANGE 42 ++ [])) 5 = some r ∧
      r.ret = 5 ∧
      r.buffer = some (wire avr Command.ACK_VALUE 42 ++ []) ∧
      r.observed = [true] ∧
      handleMessage avr Role.master g.mailbox
        (some (wire avr Command.ACK_VALUE 42 ++ [])) 5 = some a ∧
      a.mailbox.synchronized = true ∧ a.mailbox.getLong = 42 ∧
      r.mailbox.synchronized = true ∧ r.mailbox.getLong = 42 :=
  end_to_end_exchange avr 42 0 false timer0 fresh [9, 9, 9, 9, 9, 9] [] [] 6 5 5 3
    (by decide) (by decide) (by simp [avr]) (by decide) (by decide) (by simp [avr])
    (by decide) (by simp [avr])

/-! ## Contention -/

/-- C3, refuted as stated: the controller holds 1 and the peripheral holds 2,
both with a pending local write.  When the peripheral sends first, the
controller rejects the value and echoes it in its acknowledgment, so after the
round the peripheral still holds 2 (and believes it is synchronized), not the
controller's 1. -/
theorem contention_peripheral_first_keeps_own_value :
    (fresh.setLong 1).callerChanged = true ∧ (fresh.setLong 2).callerChanged = true ∧
    ∃ g r a,
      generateMessage avr (fresh.setLong 2) (some [0, 0, 0, 0, 0]) 5 0 = some g ∧
      handleMessage avr Role.master (fresh.setLong 1) g.buffer g.ret = some r ∧
      handleMessage avr Role.slave g.mailbox r.buffer r.ret = some a ∧
      r.mailbox.getLong = 1 ∧ a.mailbox.getLong = 2 ∧ a.mailbox.synchronized = true := by
  refine ⟨rfl, rfl, _, _, _, rfl, rfl, rfl, rfl, rfl, rfl⟩

/-- C3, amended: `C` is a controller mailbox with `callerChanged` set and `P` a
peripheral mailbox in any state, so also one with `callerChanged` set and a
different value.  A round started by the controller leaves both
holding the controller's value.  A round started by the peripheral leaves the
controller holding its own value and unsynchronized and the peripheral holding
its own value; the round the controller then starts leaves both holding the
controller's value. -/
theorem contention_controller_value_prevails (p : Platform) (C P : SmallMailbox)
    (buf buf' : List Nat) (size size' : Int) (now now' : Nat)
    (hC : C.callerChanged = true) (hvc : C.contents < 2 ^ 32)
    (hbits : (5 : Int) < (2 : Int) ^ p.sizeBits)
    (h5 : 5 ≤ size) (hw : size < (2 : Int) ^ p.sizeBits) (hlen : 5 ≤ buf.length)
    (h5' : 5 ≤ size') (hw' : size' < (2 : Int) ^ p.sizeBits) (hlen' : 5 ≤ buf'.length) :
    (∃ g r a,
      generateMessage p C (some buf) size now = some g ∧
      handleMessage p Role.slave P g.buffer g.ret = some r ∧
      handleMessage p Role.master g.mailbox r.buffer r.ret = some a ∧
      a.mailbox.getLong = C.getLong ∧ r.mailbox.getLong = C.getLong) ∧
    (∃ g r a,
      generateMessage p P (some buf) size now = some g ∧
      handleMessage p Role.master C g.buffer g.ret = some r ∧
      handleMessage p Role.slave g.mailbox r.buffer r.ret = some a ∧
      r.mailbox.getLong = C.getLong ∧ r.mailbox.synchronized = false ∧
      a.mailbox.getLong = P.getLong ∧
      ∃ g2 r2 a2,
        generateMessage p r.mailbox (some buf') size' now' = some g2 ∧
        handleMessage p Role.slave a.mailbox g2.buffer g2.ret = some r2 ∧
        handleMessage p Role.master g2.mailbox r2.buffer r2.ret = some a2 ∧
        a2.mailbox.getLong = C.getLong ∧ r2.mailbox.getLong = C.getLong) := by
  have hlenw : ∀ c v (rest : List Nat), 5 ≤ (wire p c v ++ rest).length := by
    intro c v rest; rw [List.length_append, wire_length]; omega
  have hsend : ∀ (s : SmallMailbox) (rest : List Nat),
      loadCommand (wire p (if s.changeTrigger && s.callerChanged then
          Command.SEND_VALUE_CHANGE else Command.SEND_VALUE) s.contents ++ rest)
        = Command.SEND_VALUE.code ∨
      loadCommand (wire p (if s.changeTrigger && s.callerChanged then
          Command.SEND_VALUE_CHANGE else Command.SEND_VALUE) s.contents ++ rest)
        = Command.SEND_VALUE_CHANGE.code := by
    intro s rest
    rw [loadCommand_wire]
    cases (s.changeTrigger && s.callerChanged) <;> simp
  have h55 : (5 : Int) ≤ 5 := le_refl _
  constructor
  · -- the controller sends first
    refine ⟨_, _, _, generateMessage_ok p C buf size now h5 hw hlen,
      handleMessage_send_accept p Role.slave P _ 5 h55 hbits (hlenw _ _ _) (hsend C _)
        (Or.inr rfl),
      handleMessage_ack p Role.master _ _ 5 h55 hbits ?_ ?_, ?_, ?_⟩
    · rw [storeCommand_wire]; exact hlenw _ _ _
    · rw [storeCommand_wire, loadCommand_wire]
    · rfl
    · simp [SmallMailbox.getLong, loadValue_wire p _ _ _ hvc]
  · -- the peripheral sends first
    refine ⟨_, _, _, generateMessage_ok p P buf size now h5 hw hlen,
      handleMessage_send_master p C _ 5 h55 hbits (hlenw _ _ _) (hsend P _) hC,
      handleMessage_ack p Role.slave _ _ 5 h55 hbits ?_ ?_, rfl, rfl, rfl, ?_⟩
    · rw [storeCommand_wire]; exact hlenw _ _ _
    · rw [storeCommand_wire, loadCommand_wire]
    · refine ⟨_, _, _, generateMessage_ok p _ buf' size' now' h5' hw' hlen',
        handleMessage_send_accept p Role.slave _ _ 5 h55 hbits (hlenw _ _ _) ?_ (Or.inr rfl),
        handleMessage_ack p Role.master _ _ 5 h55 hbits ?_ ?_, ?_, ?_⟩
      · exact hsend { C with synchronized := false } _
      · rw [storeCommand_wire]; exact hlenw _ _ _
      · rw [storeCommand_wire, loadCommand_wire]
      · rfl
      · simp [SmallMailbox.getLong, loadValue_wire p _ _ _ hvc]

/-- C3 amended, at a concrete input: controller value 1, peripheral value 2. -/
theorem contention_controller_value_prevails_witness :
    (∃ g r a,
      generateMessage avr (fresh.setLong 1) (some [0, 0, 0, 0, 0]) 5 0 = some g ∧
      handleMessage avr Role.slave (fresh.setLong 2) g.buffer g.ret = some r ∧
      handleMessage avr Role.master g.mailbox r.buffer r.ret = some a ∧
      a.mailbox.getLong = (fresh.setLong 1).getLong ∧
      r.mailbox.getLong = (fresh.setLong 1).getLong) ∧
    (∃ g r a,
      generateMessage avr (fresh.setLong 2) (some [0, 0, 0, 0, 0]) 5 0 = some g ∧
      handleMessage avr Role.master (fresh.setLong 1) g.buffer g.ret = some r ∧
      handleMessage avr Role.slave g.mailbox r.buffer r.ret = some a ∧
      r.mailbox.getLong = (fresh.setLong 1).getLong ∧ r.mailbox.synchronized = false ∧
      a.mailbox.getLong = (fresh.setLong 2).getLong ∧
      ∃ g2 r2 a2,
        generateMessage avr r.mailbox (some [0, 0, 0, 0, 0]) 5 200 = some g2 ∧
        handleMessage avr Role.slave a.mailbox g2.buffer g2.ret = some r2 ∧
        handleMessage avr Role.master g2.mailbox r2.buffer r2.ret = some a2 ∧
        a2.mailbox.getLong = (fresh.setLong 1).getLong ∧
        r2.mailbox.getLong = (fresh.setLong 1).getLong) :=
  contention_controller_value_prevails avr (fresh.setLong 1) (fresh.setLong 2)
    [0, 0, 0, 0, 0] [0, 0, 0, 0, 0] 5 5 0 200 rfl (by decide)
    (by simp [avr]) (by decide) (by simp [avr]) (by decide) (by decide) (by simp [avr])
    (by decide)

/-- C4, refuted as stated: a controller holding 1 with a pending local write
receives `SEND_VALUE` carrying 2; the reply it leaves is `ACK_VALUE` whose value
field is the received 2, not the controller's own 1. -/
theorem contention_reply_echoes_received_value :
    ∃ h out,
      handleMessage avr Role.master (fresh.setLong 1)
        (some (wire avr Command.SEND_VALUE 2)) 5 = some h ∧
      h.buffer = some out ∧ h.ret = 5 ∧
      loadCommand out = Command.ACK_VALUE.code ∧
      loadValue avr out = 2 ∧ h.mailbox.getLong = 1 ∧
      loadValue avr out ≠ h.mailbox.getLong := by
  refine ⟨_, _, rfl, rfl, rfl, rfl, rfl, rfl, ?_⟩
  decide

/-- C4, amended: when a controller-role mailbox with `callerChanged` set handles
an inbound `SEND_VALUE` or `SEND_VALUE_CHANGE`, the reply it leaves in the
buffer is the received message with its command byte replaced by `ACK_VALUE`:
the value field is the received value, whatever the controller itself holds. -/
theorem contention_reply_payload (p : Platform) (s : SmallMailbox) (buf : List Nat)
    (size : Int) (h5 : 5 ≤ size) (hw : size < (2 : Int) ^ p.sizeBits) (hlen : 5 ≤ buf.length)
    (hc : loadCommand buf = Command.SEND_VALUE.code ∨
      loadCommand buf = Command.SEND_VALUE_CHANGE.code)
    (hcc : s.callerChanged = true) :
    ∃ h out,
      handleMessage p Role.master s (some buf) size = some h ∧
      h.ret = 5 ∧ h.buffer = some out ∧
      loadCommand out = Command.ACK_VALUE.code ∧
      loadValue p out = loadValue p buf ∧
      out.drop 1 = buf.drop 1 ∧ out.length = buf.length := by
  refine ⟨_, _, handleMessage_send_master p s buf size h5 hw hlen hc hcc, rfl, rfl,
    loadCommand_storeCommand buf _ hlen, loadValue_storeCommand p buf _ hlen, ?_, ?_⟩
  · obtain ⟨b0, b1, b2, b3, b4, rest, rfl⟩ := exists_five buf hlen
    simp [storeCommand]
  · simp [storeCommand]

/-- C4 amended, at a concrete input. -/
theorem contention_reply_payload_witness :
    ∃ h out,
      handleMessage avr Role.master (fresh.setLong 1)
        (some (wire avr Command.SEND_VALUE_CHANGE 2)) 5 = some h ∧
      h.ret = 5 ∧ h.buffer = some out ∧
      loadCommand out = Command.ACK_VALUE.code ∧
      loadValue avr out = loadValue avr (wire avr Command.SEND_VALUE_CHANGE 2) ∧
      out.drop 1 = (wire avr Command.SEND_VALUE_CHANGE 2).drop 1 ∧
      out.length = (wire avr Command.SEND_VALUE_CHANGE 2).length :=
  contention_reply_payload avr (fresh.setLong 1) (wire avr Command.SEND_VALUE_CHANGE 2) 5
    (by decide) (by simp [avr]) (by decide) (Or.inr rfl) rfl

/-- C5 (contention state on the controller): when a controller-role mailbox
with `callerChanged` set handles an inbound `SEND_VALUE` or `SEND_VALUE_CHANGE`,
the call returns 5, the value and `callerChanged` are unchanged, `synchronized`
becomes false and the observer is not invoked; no other member changes. -/
theorem contention_controller_state (p : Platform) (s : SmallMailbox) (buf : List Nat)
    (size : Int) (h5 : 5 ≤ size) (hw : size < (2 : Int) ^ p.sizeBits) (hlen : 5 ≤ buf.length)
    (hc : loadCommand buf = Command.SEND_VALUE.code ∨
      loadCommand buf = Command.SEND_VALUE_CHANGE.code)
    (hcc : s.callerChanged = true) :
    ∃ h,
      handleMessage p Role.master s (some buf) size = some h ∧
      h.ret = 5 ∧
      h.mailbox.getLong = s.getLong ∧
      h.mailbox.callerChanged = s.callerChanged ∧
      h.mailbox.synchronized = false ∧
      h.observed = [] ∧
      h.mailbox = { s with synchronized := false } :=
  ⟨_, handleMessage_send_master p s buf size h5 hw hlen hc hcc, rfl, rfl, rfl, rfl, rfl, rfl⟩

/-- C5 at a concrete input: a controller holding 1 receives `SEND_VALUE` of 2. -/
theorem contention_controller_state_witness :
    ∃ h,
      handleMessage avr Role.master (fresh.setLong 1)
        (some (wire avr Command.SEND_VALUE 2)) 5 = some h ∧
      h.ret = 5 ∧
      h.mailbox.getLong = (fresh.setLong 1).getLong ∧
      h.mailbox.callerChanged = (fresh.setLong 1).callerChanged ∧
      h.mailbox.synchronized = false ∧
      h.observed = [] ∧
      h.mailbox = { fresh.setLong 1 with synchronized := false } :=
  contention_controller_state avr (fresh.setLong 1) (wire avr Command.SEND_VALUE 2) 5
    (by decide) (by simp [avr]) (by decide) (Or.inl rfl) rfl

/-! ## Change notification and the change flag -/

/-- C6, the code at the failing input: a peripheral-role mailbox with a pending
local write (`setLong 7`) accepts an inbound `SEND_VALUE` carrying 9 and
invokes its observer with the change flag set, the flag being left over from
the local write. -/
theorem resync_notifies_with_stale_change_flag :
    ∃ h,
      handleMessage avr Role.slave (fresh.setLong 7)
        (some (wire avr Command.SEND_VALUE 9)) 5 = some h ∧
      h.ret = 5 ∧ h.mailbox.getLong = 9 ∧ h.observed = [true] :=
  ⟨_, rfl, rfl, rfl, rfl⟩

/-- Repeated `generateMessage` calls keep `changeTrigger`, `callerChanged` and
the contents: only the retry timer moves. -/
theorem generate_many_keeps_flags (p : Platform) (calls : List (List Nat × Int × Nat)) :
    ∀ m : SmallMailbox,
      (∀ c ∈ calls, 5 ≤ c.1.length ∧ 5 ≤ c.2.1 ∧ c.2.1 < (2 : Int) ^ p.sizeBits) →
      ∃ st,
        calls.foldlM (fun m c =>
          (generateMessage p m (some c.1) c.2.1 c.2.2).map GenerateResult.mailbox) m = some st ∧
        st.changeTrigger = m.changeTrigger ∧ st.callerChanged = m.callerChanged ∧
        st.contents = m.contents ∧ st.synchronized = m.synchronized := by
  induction calls with
  | nil => intro m _; exact ⟨m, rfl, rfl, rfl, rfl, rfl⟩
  | cons c cs ih =>
    intro m hall
    have hc := hall c (List.mem_cons_self c cs)
    have hrest : ∀ d ∈ cs, 5 ≤ d.1.length ∧ 5 ≤ d.2.1 ∧ d.2.1 < (2 : Int) ^ p.sizeBits :=
      fun d hd => hall d (List.mem_cons_of_mem c hd)
    obtain ⟨st, hst, h1, h2, h3, h4⟩ :=
      ih { m with retryTimer := m.retryTimer.reset c.2.2 } hrest
    refine ⟨st, ?_, h1, h2, h3, h4⟩
    rw [List.foldlM_cons, generateMessage_ok p m c.1 c.2.1 c.2.2 hc.2.1 hc.2.2 hc.1]
    exact hst

/-- C7, refuted as stated: after `setLong 7` the second consecutive
`generateMessage` (the retransmission) emits `SEND_VALUE_CHANGE` again, not
`SEND_VALUE`. -/
theorem retransmission_emits_change_again :
    ∃ g1 g2 out,
      generateMessage avr (fresh.setLong 7) (some [0, 0, 0, 0, 0]) 5 0 = some g1 ∧
      generateMessage avr g1.mailbox (some [0, 0, 0, 0, 0]) 5 200 = some g2 ∧
      g2.buffer = some out ∧
      loadCommand out = Command.SEND_VALUE_CHANGE.code ∧
      loadCommand out ≠ Command.SEND_VALUE.code := by
  refine ⟨_, _, _, rfl, rfl, rfl, rfl, ?_⟩
  decide

/-- C7, amended: after a single `setLong v` with no further local write and no
inbound message in between, every one of the consecutive `generateMessage`
calls that follow, the first and each retransmission after any number of
earlier ones, emits `SEND_VALUE_CHANGE` carrying `v`; once an inbound
`ACK_VALUE` has been handled, the next `generateMessage` emits `SEND_VALUE`. -/
theorem change_message_until_inbound (p : Platform) (role : Role) (s : SmallMailbox) (v : Nat)
    (calls : List (List Nat × Int × Nat)) (buf ack : List Nat) (size ackSize : Int) (now : Nat)
    (hcalls : ∀ c ∈ calls, 5 ≤ c.1.length ∧ 5 ≤ c.2.1 ∧ c.2.1 < (2 : Int) ^ p.sizeBits)
    (h5 : 5 ≤ size) (hw : size < (2 : Int) ^ p.sizeBits) (hlen : 5 ≤ buf.length)
    (h5a : 5 ≤ ackSize) (hwa : ackSize < (2 : Int) ^ p.sizeBits) (hlena : 5 ≤ ack.length)
    (hack : loadCommand ack = Command.ACK_VALUE.code) :
    ∃ st g h g',
      calls.foldlM (fun m c =>
        (generateMessage p m (some c.1) c.2.1 c.2.2).map GenerateResult.mailbox)
        (s.setLong v) = some st ∧
      generateMessage p st (some buf) size now = some g ∧
      g.ret = 5 ∧
      g.buffer = some (wire p Command.SEND_VALUE_CHANGE v ++ buf.drop 5) ∧
      handleMessage p role st (some ack) ackSize = some h ∧
      generateMessage p h.mailbox (some buf) size now = some g' ∧
      g'.ret = 5 ∧
      g'.buffer = some (wire p Command.SEND_VALUE v ++ buf.drop 5) := by
  obtain ⟨st, hst, h1, h2, h3, _⟩ := generate_many_keeps_flags p calls (s.setLong v) hcalls
  have h1' : st.changeTrigger = true := h1
  have h2' : st.callerChanged = true := h2
  have h3' : st.contents = v := h3
  refine ⟨st, _, _, _, hst, generateMessage_ok p st buf size now h5 hw hlen, rfl, ?_,
    handleMessage_ack p role st ack ackSize h5a hwa hlena hack,
    generateMessage_ok p _ buf size now h5 hw hlen, rfl, ?_⟩
  · simp [h1', h2', h3']
  · simp [h3']

/-- C7 amended, at a concrete input: two earlier retransmissions, then a third
call, an acknowledgment of a stale value, and a fourth call. -/
theorem change_message_until_inbound_witness :
    ∃ st g h g',
      [([0, 0, 0, 0, 0], (5 : Int), 10), ([1, 1, 1, 1, 1, 1], (6 : Int), 300)].foldlM
        (fun m c =>
          (generateMessage avr m (some c.1) c.2.1 c.2.2).map GenerateResult.mailbox)
        (fresh.setLong 7) = some st ∧
      generateMessage avr st (some [0, 0, 0, 0, 0]) 5 600 = some g ∧
      g.ret = 5 ∧
      g.buffer = some (wire avr Command.SEND_VALUE_CHANGE 7 ++ [0, 0, 0, 0, 0].drop 5) ∧
      handleMessage avr Role.master st (some (wire avr Command.ACK_VALUE 3)) 5 = some h ∧
      generateMessage avr h.mailbox (some [0, 0, 0, 0, 0]) 5 600 = some g' ∧
      g'.ret = 5 ∧
      g'.buffer = some (wire avr Command.SEND_VALUE 7 ++ [0, 0, 0, 0, 0].drop 5) :=
  change_message_until_inbound avr Role.master fresh 7
    [([0, 0, 0, 0, 0], 5, 10), ([1, 1, 1, 1, 1, 1], 6, 300)] [0, 0, 0, 0, 0]
    (wire avr Command.ACK_VALUE 3) 5 5 600
    (by simp [avr]) (by decide) (by simp [avr]) (by decide) (by decide) (by simp [avr])
    (by decide) rfl

/-- C8, refuted as stated: after `setLong 7`, `generateMessage` and
`handleMessage` on `ACK_VALUE` carrying 7 the mailbox is synchronized, but
`callerChanged` is still true. -/
theorem callerChanged_survives_matching_ack :
    ∃ g h,
      generateMessage avr (fresh.setLong 7) (some [0, 0, 0, 0, 0]) 5 0 = some g ∧
      handleMessage avr Role.master g.mailbox (some (wire avr Command.ACK_VALUE 7)) 5 = some h ∧
      h.ret = 0 ∧ h.mailbox.synchronized = true ∧ h.mailbox.callerChanged = true ∧
      h.mailbox.callerChanged ≠ false := by
  refine ⟨_, _, rfl, rfl, rfl, rfl, rfl, ?_⟩
  decide

/-- C8, amended: `setLong` sets `callerChanged`, and it stays set through the
matching acknowledgment: for every state and 32-bit `v`, after `setLong v`,
`generateMessage` and `handleMessage` on `ACK_VALUE` carrying `v`, the mailbox
is synchronized and `callerChanged` is still true. -/
theorem callerChanged_after_matching_ack (p : Platform) (role : Role) (s : SmallMailbox)
    (v : Nat) (buf rest : List Nat) (size ackSize : Int) (now : Nat)
    (hv : v < 2 ^ 32)
    (h5 : 5 ≤ size) (hw : size < (2 : Int) ^ p.sizeBits) (hlen : 5 ≤ buf.length)
    (h5a : 5 ≤ ackSize) (hwa : ackSize < (2 : Int) ^ p.sizeBits) :
    (s.setLong v).callerChanged = true ∧
    ∃ g h,
      generateMessage p (s.setLong v) (some buf) size now = some g ∧
      handleMessage p role g.mailbox (some (wire p Command.ACK_VALUE v ++ rest)) ackSize
        = some h ∧
      h.mailbox.synchronized = true ∧ h.mailbox.callerChanged = true := by
  have hacklen : 5 ≤ (wire p Command.ACK_VALUE v ++ rest).length := by
    rw [List.length_append, wire_length]; omega
  refine ⟨rfl, _, _, generateMessage_ok p (s.setLong v) buf size now h5 hw hlen,
    handleMessage_ack p role _ _ ackSize h5a hwa hacklen (loadCommand_wire p _ _ rest), ?_, rfl⟩
  have hval : (s.setLong v).contents = v := rfl
  simp [loadValue_wire p _ v _ hv, hval]

/-- C8 amended, at a concrete input. -/
theorem callerChanged_after_matching_ack_witness :
    (fresh.setLong 7).callerChanged = true ∧
    ∃ g h,
      generateMessage avr (fresh.setLong 7) (some [0, 0, 0, 0, 0]) 5 0 = some g ∧
      handleMessage avr Role.slave g.mailbox (some (wire avr Command.ACK_VALUE 7 ++ [])) 5
        = some h ∧
      h.mailbox.synchronized = true ∧ h.mailbox.callerChanged = true :=
  callerChanged_after_matching_ack avr Role.slave fresh 7 [0, 0, 0, 0, 0] [] 5 5 0
    (by decide) (by decide) (by simp [avr]) (by decide) (by decide) (by simp [avr])

/-! ## Bus reset and inbound acknowledgments -/

/-- C9 (bus reset): for every state, after `busReset` `synchronized` is the
negation of the earlier `callerChanged`, `changeTrigger` is false, the retry
timer has been triggered and so is ready at every time, and the value and
`callerChanged` are unchanged. -/
theorem busReset_postcondition (s : SmallMailbox) :
    s.busReset.synchronized = !s.callerChanged ∧
    s.busReset.changeTrigger = false ∧
    s.busReset.retryTimer = s.retryTimer.trigger ∧
    (∀ now, s.busReset.retryTimer.ready now = true) ∧
    s.busReset.getLong = s.getLong ∧
    s.busReset.callerChanged = s.callerChanged := by
  unfold SmallMailbox.busReset
  cases hcc : s.callerChanged <;>
    simp [hcc, SmallMailbox.getLong, RetryTimer.trigger, RetryTimer.ready]

/-- C10 (inbound acknowledgment): for every state and every `ACK_VALUE` message,
with `a` the value it carries, `handleMessage` returns 0, leaves the buffer as
it was, does not invoke the observer, leaves the value and `callerChanged`
unchanged, clears `changeTrigger`, and sets `synchronized` to true if `a` is
the current value and leaves it as it was otherwise; so a mailbox that was
synchronized stays synchronized. -/
theorem inbound_ack_postcondition (p : Platform) (role : Role) (s : SmallMailbox)
    (buf : List Nat) (size : Int) (a : Nat)
    (h5 : 5 ≤ size) (hw : size < (2 : Int) ^ p.sizeBits) (hlen : 5 ≤ buf.length)
    (hc : loadCommand buf = Command.ACK_VALUE.code) (ha : loadValue p buf = a) :
    ∃ h,
      handleMessage p role s (some buf) size = some h ∧
      h.ret = 0 ∧ h.buffer = some buf ∧ h.observed = [] ∧
      h.mailbox.getLong = s.getLong ∧
      h.mailbox.callerChanged = s.callerChanged ∧
      h.mailbox.changeTrigger = false ∧
      h.mailbox.synchronized = (if a = s.getLong then true else s.synchronized) ∧
      (s.synchronized = true → h.mailbox.synchronized = true) := by
  subst ha
  refine ⟨_, handleMessage_ack p role s buf size h5 hw hlen hc, rfl, rfl, rfl, rfl, rfl, rfl,
    rfl, ?_⟩
  intro hs
  simp [hs]

/-- C10 at a concrete input: a synchronized mailbox holding 0 receives an
acknowledgment of 5 and stays synchronized. -/
theorem inbound_ack_postcondition_witness :
    ∃ h,
      handleMessage avr Role.slave fresh (some (wire avr Command.ACK_VALUE 5)) 5 = some h ∧
      h.ret = 0 ∧ h.buffer = some (wire avr Command.ACK_VALUE 5) ∧ h.observed = [] ∧
      h.mailbox.getLong = fresh.getLong ∧
      h.mailbox.callerChanged = fresh.callerChanged ∧
      h.mailbox.changeTrigger = false ∧
      h.mailbox.synchronized = (if 5 = fresh.getLong then true else fresh.synchronized) ∧
      (fresh.synchronized = true → h.mailbox.synchronized = true) :=
  inbound_ack_postcondition avr Role.slave fresh (wire avr Command.ACK_VALUE 5) 5 5
    (by decide) (by simp [avr]) (by decide) rfl rfl

/-! ## Postconditions of the single calls -/

/-- C11 (normal acceptance): when `handleMessage` receives `SEND_VALUE` or
`SEND_VALUE_CHANGE` carrying `w` and either `callerChanged` is false or the
local role is the peripheral, the mailbox adopts `w`, ends synchronized with
`callerChanged` and `changeTrigger` false, and returns 5 with the buffer
holding `ACK_VALUE` carrying `w`; a pending local value of a peripheral is
overwritten. -/
theorem normal_acceptance_postcondition (p : Platform) (role : Role) (s : SmallMailbox)
    (buf : List Nat) (size : Int) (w : Nat)
    (h5 : 5 ≤ size) (hw : size < (2 : Int) ^ p.sizeBits) (hlen : 5 ≤ buf.length)
    (hc : loadCommand buf = Command.SEND_VALUE.code ∨
      loadCommand buf = Command.SEND_VALUE_CHANGE.code)
    (hval : loadValue p buf = w)
    (hacc : s.callerChanged = false ∨ role = Role.slave) :
    ∃ h out,
      handleMessage p role s (some buf) size = some h ∧
      h.ret = 5 ∧
      h.mailbox.getLong = w ∧
      h.mailbox.synchronized = true ∧
      h.mailbox.callerChanged = false ∧
      h.mailbox.changeTrigger = false ∧
      h.buffer = some out ∧
      loadCommand out = Command.ACK_VALUE.code ∧
      loadValue p out = h.mailbox.getLong ∧
      out.drop 1 = buf.drop 1 ∧ out.length = buf.length := by
  subst hval
  refine ⟨_, _, handleMessage_send_accept p role s buf size h5 hw hlen hc hacc, rfl, rfl, rfl,
    rfl, rfl, rfl, loadCommand_storeCommand buf _ hlen, loadValue_storeCommand p buf _ hlen,
    ?_, ?_⟩
  · obtain ⟨b0, b1, b2, b3, b4, rest, rfl⟩ := exists_five buf hlen
    simp [storeCommand]
  · simp [storeCommand]

/-- C11 at the peripheral contention case: a peripheral with the pending local
value 7 receives `SEND_VALUE` carrying 9. -/
theorem normal_acceptance_postcondition_witness :
    ∃ h out,
      handleMessage avr Role.slave (fresh.setLong 7)
        (some (wire avr Command.SEND_VALUE 9)) 5 = some h ∧
      h.ret = 5 ∧
      h.mailbox.getLong = 9 ∧
      h.mailbox.synchronized = true ∧
      h.mailbox.callerChanged = false ∧
      h.mailbox.changeTrigger = false ∧
      h.buffer = some out ∧
      loadCommand out = Command.ACK_VALUE.code ∧
      loadValue avr out = h.mailbox.getLong ∧
      out.drop 1 = (wire avr Command.SEND_VALUE 9).drop 1 ∧
      out.length = (wire avr Command.SEND_VALUE 9).length :=
  normal_acceptance_postcondition avr Role.slave (fresh.setLong 7)
    (wire avr Command.SEND_VALUE 9) 5 9
    (by decide) (by simp [avr]) (by decide) (Or.inl rfl) rfl (Or.inr rfl)

/-- C12 (local write): for every prior state and every `v`, after `setLong v`
the value is `v`, `synchronized` is false, `callerChanged` and `changeTrigger`
are true and the retry timer has been triggered, so it is ready at every time;
the members `setLong` assigns do not depend on the prior state, and `setLong a`
followed by `setLong b` leaves the same state as `setLong b` alone. -/
theorem setLong_postcondition (s : SmallMailbox) (v a b : Nat) :
    (s.setLong v).getLong = v ∧
    (s.setLong v).synchronized = false ∧
    (s.setLong v).callerChanged = true ∧
    (s.setLong v).changeTrigger = true ∧
    (s.setLong v).retryTimer = s.retryTimer.trigger ∧
    (∀ now, (s.setLong v).retryTimer.ready now = true) ∧
    (s.setLong a).setLong b = s.setLong b := by
  refine ⟨rfl, rfl, rfl, rfl, rfl, ?_, rfl⟩
  intro now
  simp [SmallMailbox.setLong, RetryTimer.trigger, RetryTimer.ready]

/-- C13 (message generation): for every state holding a 32-bit value, with a
non-null buffer of capacity at least 5, `generateMessage` returns 5 and writes
exactly the first five bytes: byte 0 is 2 (`SEND_VALUE_CHANGE`) if
`changeTrigger && callerChanged` and 0 (`SEND_VALUE`) otherwise, bytes 1 to 4
hold the current value; the retry timer is reset and no other member
changes. -/
theorem generateMessage_postcondition (p : Platform) (s : SmallMailbox) (buf : List Nat)
    (size : Int) (now : Nat)
    (h5 : 5 ≤ size) (hw : size < (2 : Int) ^ p.sizeBits) (hlen : 5 ≤ buf.length)
    (hv : s.contents < 2 ^ 32) :
    ∃ g out,
      generateMessage p s (some buf) size now = some g ∧
      g.ret = 5 ∧
      g.buffer = some out ∧
      loadCommand out = (if s.changeTrigger && s.callerChanged then 2 else 0) ∧
      loadValue p out = s.getLong ∧
      out.take 5 = wire p (if s.changeTrigger && s.callerChanged then
        Command.SEND_VALUE_CHANGE else Command.SEND_VALUE) s.getLong ∧
      out.drop 5 = buf.drop 5 ∧ out.length = buf.length ∧
      g.mailbox.retryTimer = s.retryTimer.reset now ∧
      g.mailbox.getLong = s.getLong ∧
      g.mailbox.synchronized = s.synchronized ∧
      g.mailbox.callerChanged = s.callerChanged ∧
      g.mailbox.changeTrigger = s.changeTrigger ∧
      g.mailbox = { s with retryTimer := s.retryTimer.reset now } := by
  refine ⟨_, _, generateMessage_ok p s buf size now h5 hw hlen, rfl, rfl, ?_,
    loadValue_wire p _ _ _ hv, ?_, ?_, ?_, rfl, rfl, rfl, rfl, rfl, rfl⟩
  · rw [loadCommand_wire]
    cases (s.changeTrigger && s.callerChanged) <;> rfl
  · rw [List.take_left' (wire_length p _ _)]
    rfl
  · rw [List.drop_left' (wire_length p _ _)]
  · rw [List.length_append, wire_length, List.length_drop]
    omega

/-- C13 at a concrete input: a fresh local write of 42 into a 6-byte buffer. -/
theorem generateMessage_postcondition_witness :
    ∃ g out,
      generateMessage avr (fresh.setLong 42) (some [9, 9, 9, 9, 9, 9]) 6 3 = some g ∧
      g.ret = 5 ∧
      g.buffer = some out ∧
      loadCommand out = (if (fresh.setLong 42).changeTrigger && (fresh.setLong 42).callerChanged
        then 2 else 0) ∧
      loadValue avr out = (fresh.setLong 42).getLong ∧
      out.take 5 = wire avr (if (fresh.setLong 42).changeTrigger &&
        (fresh.setLong 42).callerChanged then
        Command.SEND_VALUE_CHANGE else Command.SEND_VALUE) (fresh.setLong 42).getLong ∧
      out.drop 5 = [9, 9, 9, 9, 9, 9].drop 5 ∧ out.length = [9, 9, 9, 9, 9, 9].length ∧
      g.mailbox.retryTimer = (fresh.setLong 42).retryTimer.reset 3 ∧
      g.mailbox.getLong = (fresh.setLong 42).getLong ∧
      g.mailbox.synchronized = (fresh.setLong 42).synchronized ∧
      g.mailbox.callerChanged = (fresh.setLong 42).callerChanged ∧
      g.mailbox.changeTrigger = (fresh.setLong 42).changeTrigger ∧
      g.mailbox = { fresh.setLong 42 with retryTimer := (fresh.setLong 42).retryTimer.reset 3 } :=
  generateMessage_postcondition avr (fresh.setLong 42) [9, 9, 9, 9, 9, 9] 6 3
    (by decide) (by simp [avr]) (by decide) (by decide)

/-- Every defined result of `handleMessage` comes from one of its six exits. -/
theorem handleMessage_cases (p : Platform) (role : Role) (s : SmallMailbox)
    (buffer : Option (List Nat)) (size : Int) (h : HandleResult)
    (hh : handleMessage p role s buffer size = some h) :
    (h = { ret := -1, mailbox := s, buffer := buffer, observed := [] } ∧
      p.apiCheck = true ∧ sizeBelowMessage p size = true) ∨
    (h = { ret := -2, mailbox := s, buffer := buffer, observed := [] } ∧
      p.apiCheck = true ∧ buffer = none) ∨
    (∃ buf, buffer = some buf ∧ 5 ≤ buf.length ∧
      ((loadCommand buf = Command.SEND_VALUE.code ∨
          loadCommand buf = Command.SEND_VALUE_CHANGE.code) ∧
        s.callerChanged = true ∧ role = Role.master ∧
        h = { ret := 5
              mailbox := { s with synchronized := false }
              buffer := some (storeCommand buf Command.ACK_VALUE)
              observed := [] } ∨
       (loadCommand buf = Command.SEND_VALUE.code ∨
          loadCommand buf = Command.SEND_VALUE_CHANGE.code) ∧
        ¬ (s.callerChanged = true ∧ role = Role.master) ∧
        h = { ret := 5
              mailbox := { s with
                contents := loadValue p buf
                synchronized := true
                callerChanged := false
                changeTrigger := false }
              buffer := some (storeCommand buf Command.ACK_VALUE)
              observed :=
                if s.observer then
                  [decide (loadCommand buf = Command.SEND_VALUE_CHANGE.code) || s.changeTrigger]
                else [] } ∨
       loadCommand buf = Command.ACK_VALUE.code ∧
        h = { ret := 0
              mailbox := { s with
                synchronized := if loadValue p buf = s.contents then true else s.synchronized
                changeTrigger := false }
              buffer := some buf
              observed := [] } ∨
       (loadCommand buf ≠ Command.SEND_VALUE.code ∧
          loadCommand buf ≠ Command.ACK_VALUE.code ∧
          loadCommand buf ≠ Command.SEND_VALUE_CHANGE.code) ∧
        h = { ret := 1, mailbox := s, buffer := some buf, observed := [] })) := by
  unfold handleMessage at hh
  by_cases hA : (p.apiCheck && sizeBelowMessage p size) = true
  · rw [if_pos hA] at hh
    simp only [Bool.and_eq_true] at hA
    left
    exact ⟨(Option.some.inj hh).symm, hA.1, hA.2⟩
  · rw [if_neg hA] at hh
    by_cases hB : (p.apiCheck && buffer.isNone) = true
    · rw [if_pos hB] at hh
      simp only [Bool.and_eq_true, Option.isNone_iff_eq_none] at hB
      right; left
      exact ⟨(Option.some.inj hh).symm, hB.1, hB.2⟩
    · rw [if_neg hB] at hh
      right; right
      cases buffer with
      | none => simp at hh
      | some buf =>
        simp only at hh
        by_cases hl : buf.length < sizeofSmallMailboxMessage
        · rw [if_pos hl] at hh; simp at hh
        · rw [if_neg hl] at hh
          have hlen : 5 ≤ buf.length := by
            unfold sizeofSmallMailboxMessage at hl; omega
          refine ⟨buf, rfl, hlen, ?_⟩
          by_cases hc : loadCommand buf = Command.SEND_VALUE.code ∨
              loadCommand buf = Command.SEND_VALUE_CHANGE.code
          · rw [if_pos hc] at hh
            by_cases hm : s.callerChanged = true ∧ role = Role.master
            · rw [if_pos hm] at hh
              left
              exact ⟨hc, hm.1, hm.2, (Option.some.inj hh).symm⟩
            · rw [if_neg hm] at hh
              right; left
              refine ⟨hc, hm, ?_⟩
              rw [← Option.some.inj hh]
              by_cases h2 : loadCommand buf = Command.SEND_VALUE_CHANGE.code
              · cases ho : s.observer <;> simp [h2, ho, sizeofSmallMailboxMessage]
              · cases ho : s.observer <;> simp [h2, ho, sizeofSmallMailboxMessage]
          · rw [if_neg hc] at hh
            by_cases ha : loadCommand buf = Command.ACK_VALUE.code
            · rw [if_pos ha] at hh
              right; right; left
              refine ⟨ha, ?_⟩
              rw [← Option.some.inj hh]
              by_cases hv : loadValue p buf = s.contents <;> simp [hv]
            · rw [if_neg ha] at hh
              right; right; right
              exact ⟨⟨fun e => hc (Or.inl e), ha, fun e => hc (Or.inr e)⟩,
                (Option.some.inj hh).symm⟩

/-- Every defined result of `generateMessage` comes from one of its three exits. -/
theorem generateMessage_cases (p : Platform) (s : SmallMailbox)
    (buffer : Option (List Nat)) (size : Int) (now : Nat) (g : GenerateResult)
    (hg : generateMessage p s buffer size now = some g) :
    (g = { ret := -1, mailbox := s, buffer := buffer } ∧
      p.apiCheck = true ∧ sizeBelowMessage p size = true) ∨
    (g = { ret := -2, mailbox := s, buffer := buffer } ∧
      p.apiCheck = true ∧ buffer = none) ∨
    (∃ buf, buffer = some buf ∧ 5 ≤ buf.length ∧ g.ret = 5 ∧
      g.mailbox = { s with retryTimer := s.retryTimer.reset now }) := by
  unfold generateMessage at hg
  by_cases hA : (p.apiCheck && sizeBelowMessage p size) = true
  · rw [if_pos hA] at hg
    simp only [Bool.and_eq_true] at hA
    left
    exact ⟨(Option.some.inj hg).symm, hA.1, hA.2⟩
  · rw [if_neg hA] at hg
    by_cases hB : (p.apiCheck && buffer.isNone) = true
    · rw [if_pos hB] at hg
      simp only [Bool.and_eq_true, Option.isNone_iff_eq_none] at hB
      right; left
      exact ⟨(Option.some.inj hg).symm, hB.1, hB.2⟩
    · rw [if_neg hB] at hg
      right; right
      cases buffer with
      | none => simp at hg
      | some buf =>
        simp only at hg
        by_cases hl : buf.length < sizeofSmallMailboxMessage
        · rw [if_pos hl] at hg; simp at hg
        · rw [if_neg hl] at hg
          have hlen : 5 ≤ buf.length := by
            unfold sizeofSmallMailboxMessage at hl; omega
          refine ⟨buf, rfl, hlen, ?_⟩
          rw [← Option.some.inj hg]
          exact ⟨rfl, rfl⟩

/-- A size from 0 to 4 is below the message size whatever the width of
`size_t`. -/
theorem sizeBelowMessage_true (p : Platform) (size : Int) (h0 : 0 ≤ size) (h4 : size < 5) :
    sizeBelowMessage p size = true := by
  unfold sizeBelowMessage sizeofSmallMailboxMessage
  have hpos : (0 : Int) < (2 : Int) ^ p.sizeBits := pow_pos (by decide) _
  have hnn : 0 ≤ size % (2 : Int) ^ p.sizeBits := Int.emod_nonneg _ (ne_of_gt hpos)
  have hlt : size % (2 : Int) ^ p.sizeBits < 5 := by
    by_cases hs : size < (2 : Int) ^ p.sizeBits
    · rw [Int.emod_eq_of_lt h0 hs]; exact h4
    · have := Int.emod_lt_of_pos size hpos
      omega
  simp only [decide_eq_true_eq]
  omega

/-- The usage errors as far as the code reports them: with the API checks on,
a size from 0 to 4 yields -1 and a null buffer with a size of at least 5
yields -2, from both methods, with the mailbox and the buffer untouched and no
observer call. -/
theorem usage_errors_nonnegative_size (p : Platform) (role : Role) (s : SmallMailbox)
    (buffer : Option (List Nat)) (size : Int) (now : Nat) (hapi : p.apiCheck = true) :
    (0 ≤ size → size < 5 →
      generateMessage p s buffer size now = some { ret := -1, mailbox := s, buffer := buffer } ∧
      handleMessage p role s buffer size =
        some { ret := -1, mailbox := s, buffer := buffer, observed := [] }) ∧
    (5 ≤ size → size < (2 : Int) ^ p.sizeBits →
      generateMessage p s none size now = some { ret := -2, mailbox := s, buffer := none } ∧
      handleMessage p role s none size =
        some { ret := -2, mailbox := s, buffer := none, observed := [] }) := by
  constructor
  · intro h0 h4
    have hb := sizeBelowMessage_true p size h0 h4
    simp [generateMessage, handleMessage, hapi, hb]
  · intro h5 hw
    have hb := sizeBelowMessage_false p size h5 hw
    simp [generateMessage, handleMessage, hapi, hb]

/-- C14, the code at the failing input: with the API checks on and a size of
-1, neither method reports "buffer too small".  `generateMessage` returns 5,
writes the buffer and resets the retry timer; `handleMessage` returns 5,
adopts the received value and invokes the observer. -/
theorem negative_size_passes_the_size_check :
    avr.apiCheck = true ∧
    (∃ g,
      generateMessage avr (fresh.setLong 7) (some [9, 9, 9, 9, 9]) (-1) 50 = some g ∧
      g.ret = 5 ∧
      g.buffer = some (wire avr Command.SEND_VALUE_CHANGE 7) ∧
      g.mailbox.retryTimer = (fresh.setLong 7).retryTimer.reset 50) ∧
    (∃ h,
      handleMessage avr Role.slave fresh
        (some (wire avr Command.SEND_VALUE_CHANGE 9)) (-1) = some h ∧
      h.ret = 5 ∧ h.mailbox.getLong = 9 ∧ h.observed = [true] ∧
      h.buffer = some (wire avr Command.ACK_VALUE 9)) :=
  ⟨rfl, ⟨_, rfl, rfl, rfl, rfl⟩, ⟨_, rfl, rfl, rfl, rfl, rfl⟩⟩

/-- C15 (unrecognized command): for every non-null buffer of size at least 5
whose command byte is none of 0, 1 and 2, `handleMessage` returns 1, leaves the
buffer and every member of the mailbox as they were and does not invoke the
observer; and whenever `handleMessage` returns 1, the buffer is non-null and
its command byte is none of 0, 1 and 2. -/
theorem unrecognized_command (p : Platform) (role : Role) (s : SmallMailbox)
    (buf : List Nat) (size : Int)
    (h5 : 5 ≤ size) (hw : size < (2 : Int) ^ p.sizeBits) (hlen : 5 ≤ buf.length)
    (h0 : loadCommand buf ≠ 0) (h1 : loadCommand buf ≠ 1) (h2 : loadCommand buf ≠ 2) :
    handleMessage p role s (some buf) size =
      some { ret := 1, mailbox := s, buffer := some buf, observed := [] } ∧
    ∀ (t : SmallMailbox) (r : Role) (buffer : Option (List Nat)) (n : Int) (h : HandleResult),
      handleMessage p r t buffer n = some h → h.ret = 1 →
      ∃ b, buffer = some b ∧ loadCommand b ≠ 0 ∧ loadCommand b ≠ 1 ∧ loadCommand b ≠ 2 := by
  constructor
  · unfold handleMessage
    rw [sizeBelowMessage_false p size h5 hw]
    have hl : ¬ buf.length < sizeofSmallMailboxMessage := by
      unfold sizeofSmallMailboxMessage; omega
    have hc : ¬ (loadCommand buf = Command.SEND_VALUE.code ∨
        loadCommand buf = Command.SEND_VALUE_CHANGE.code) := by
      rintro (e | e)
      · exact h0 e
      · exact h2 e
    have ha : ¬ loadCommand buf = Command.ACK_VALUE.code := h1
    simp only [Bool.and_false, Bool.false_eq_true, if_false]
    rw [if_neg hl, if_neg hc, if_neg ha]
    simp
  · intro t r buffer n h hh hret
    rcases handleMessage_cases p r t buffer n h hh with
      ⟨e, -, -⟩ | ⟨e, -, -⟩ | ⟨b, hb, -, ⟨-, -, -, e⟩ | ⟨-, -, e⟩ | ⟨-, e⟩ | ⟨hne, -⟩⟩
    · rw [e] at hret; simp at hret
    · rw [e] at hret; simp at hret
    · rw [e] at hret; simp at hret
    · rw [e] at hret; simp at hret
    · rw [e] at hret; simp at hret
    · exact ⟨b, hb, hne.1, hne.2.1, hne.2.2⟩

/-- C15 at a concrete input: command byte 3. -/
theorem unrecognized_command_witness :
    handleMessage avr Role.master (fresh.setLong 7) (some [3, 1, 2, 3, 4]) 5 =
      some { ret := 1, mailbox := fresh.setLong 7, buffer := some [3, 1, 2, 3, 4]
             observed := [] } ∧
    ∀ (t : SmallMailbox) (r : Role) (buffer : Option (List Nat)) (n : Int) (h : HandleResult),
      handleMessage avr r t buffer n = some h → h.ret = 1 →
      ∃ b, buffer = some b ∧ loadCommand b ≠ 0 ∧ loadCommand b ≠ 1 ∧ loadCommand b ≠ 2 :=
  unrecognized_command avr Role.master (fresh.setLong 7) [3, 1, 2, 3, 4] 5
    (by decide) (by simp [avr]) (by decide) (by decide) (by decide) (by decide)

/-- C16 (owed send): for every state and time, `hasPendingChanges` is non-zero
if and only if the retry timer is ready and `synchronized` is false, and it is
then 1.  The method assigns no member: it is a function of the state alone. -/
theorem hasPendingChanges_iff (s : SmallMailbox) (now : Nat) :
    (s.hasPendingChanges now ≠ 0 ↔ (s.retryTimer.ready now = true ∧ s.synchronized = false)) ∧
    (s.hasPendingChanges now = 0 ∨ s.hasPendingChanges now = 1) := by
  unfold SmallMailbox.hasPendingChanges
  cases hr : s.retryTimer.ready now <;> cases hs : s.synchronized <;> simp

/-! ## The I2C datalink -/

/-- C17 (poll only after an unanswered frame): in the slave receive path, for
every receive event of at least one byte, the calls into the network layer are
`handleFrame` first and then `pollFrame` exactly when `returnFrameSize` is not
positive once `handleFrame` has returned; so `pollFrame` is called if and only
if `handleFrame` staged no reply, and never ahead of `handleFrame`. -/
theorem poll_only_after_unanswered_frame {σ : Type} (network : NetworkOps σ) (st : σ)
    (d : I2CDatalink) (receiveEventCount : Int) (rx : List Nat) (howMany : Int)
    (hmany : 1 ≤ howMany) :
    ∃ size handled,
      size = (rx.take MAX_MAKERNET_FRAME_LENGTH).length ∧
      handled = network.handleFrame st
        { d with
          frameBuffer := rx.take MAX_MAKERNET_FRAME_LENGTH ++ d.frameBuffer.drop size
          returnFrameSize := 0 } size ∧
      (I2CDatalink_receiveEvent network st d receiveEventCount rx howMany).calls =
        NetCall.handleFrame size ::
          (if handled.2.returnFrameSize > 0 then []
           else [NetCall.pollFrame MAX_MAKERNET_FRAME_LENGTH]) ∧
      (NetCall.pollFrame MAX_MAKERNET_FRAME_LENGTH ∈
          (I2CDatalink_receiveEvent network st d receiveEventCount rx howMany).calls ↔
        ¬ handled.2.returnFrameSize > 0) ∧
      (I2CDatalink_receiveEvent network st d receiveEventCount rx howMany).calls.head? =
        some (NetCall.handleFrame size) := by
  have key : (I2CDatalink_receiveEvent network st d receiveEventCount rx howMany).calls =
      NetCall.handleFrame (rx.take MAX_MAKERNET_FRAME_LENGTH).length ::
        (if (network.handleFrame st
            { d with
              frameBuffer := rx.take MAX_MAKERNET_FRAME_LENGTH ++
                d.frameBuffer.drop (rx.take MAX_MAKERNET_FRAME_LENGTH).length
              returnFrameSize := 0 }
            (rx.take MAX_MAKERNET_FRAME_LENGTH).length).2.returnFrameSize > 0 then []
         else [NetCall.pollFrame MAX_MAKERNET_FRAME_LENGTH]) := by
    unfold I2CDatalink_receiveEvent
    rw [if_neg (by omega)]
    dsimp only
    split_ifs <;> rfl
  refine ⟨_, _, rfl, rfl, key, ?_, ?_⟩
  · rw [key]
    split_ifs with h
    · constructor
      · intro hm
        rw [List.mem_singleton] at hm
        exact NetCall.noConfusion hm
      · intro hn
        exact absurd h hn
    · exact ⟨fun _ => h, fun _ => List.mem_cons_of_mem _ (List.mem_singleton.mpr rfl)⟩
  · rw [key]
    rfl

/-- C17 at two concrete inputs: a 5-byte frame that `network0` answers, so no
poll follows, and a 1-byte frame it leaves unanswered, so the poll follows. -/
theorem poll_only_after_unanswered_frame_witness :
    (∃ size handled,
      size = ([0, 1, 0, 0, 0].take MAX_MAKERNET_FRAME_LENGTH).length ∧
      handled = network0.handleFrame ()
        { datalink0 with
          frameBuffer := [0, 1, 0, 0, 0].take MAX_MAKERNET_FRAME_LENGTH ++
            datalink0.frameBuffer.drop size
          returnFrameSize := 0 } size ∧
      (I2CDatalink_receiveEvent network0 () datalink0 0 [0, 1, 0, 0, 0] 5).calls =
        NetCall.handleFrame size ::
          (if handled.2.returnFrameSize > 0 then []
           else [NetCall.pollFrame MAX_MAKERNET_FRAME_LENGTH]) ∧
      (NetCall.pollFrame MAX_MAKERNET_FRAME_LENGTH ∈
          (I2CDatalink_receiveEvent network0 () datalink0 0 [0, 1, 0, 0, 0] 5).calls ↔
        ¬ handled.2.returnFrameSize > 0) ∧
      (I2CDatalink_receiveEvent network0 () datalink0 0 [0, 1, 0, 0, 0] 5).calls.head? =
        some (NetCall.handleFrame size)) ∧
    (I2CDatalink_receiveEvent network0 () datalink0 0 [0, 1, 0, 0, 0] 5).calls =
      [NetCall.handleFrame 5] ∧
    (I2CDatalink_receiveEvent network0 () datalink0 0 [7] 1).calls =
      [NetCall.handleFrame 1, NetCall.pollFrame 255] :=
  ⟨poll_only_after_unanswered_frame network0 () datalink0 0 [0, 1, 0, 0, 0] 5 (by decide),
    by decide, by decide⟩

/-- In the master role with controller support, the bytes `sendFrame` hands to
`Wire.write` are the first `len` bytes of the datalink's own `frameBuffer`,
whatever `inBuffer` designates. -/
theorem sendFrame_writes_frameBuffer {σ : Type} (charSigned : Bool) (network : NetworkOps σ)
    (st : σ) (d : I2CDatalink) (inBuffer : FrameRef) (len : Nat) (reply : List Nat)
    (hlen : len ≤ d.frameBuffer.length) :
    (I2CDatalink.sendFrame true charSigned Role.master network st d inBuffer len reply).written
      = d.frameBuffer.take len := by
  have hw : (List.range len).map (fun i => d.frameBuffer.getD i 0) = d.frameBuffer.take len := by
    apply List.ext_getElem
    · simp [hlen]
    · intro i h1 h2
      simp at h1
      simp [List.getD_eq_getElem?_getD, List.getElem?_eq_getElem (show i < d.frameBuffer.length by omega)]
  unfold I2CDatalink.sendFrame
  rw [if_neg (by decide), if_pos ⟨rfl, rfl⟩]
  simp only
  split_ifs <;> exact hw

/-- C18, the code at the failing input: in the master role with controller
support, `sendFrame` is given the external buffer 9, 9, 9 and length 3 while the
datalink's own `frameBuffer` starts with 1, 2, 3.  The diagnostic print shows
9, 9, 9, but the bytes handed to `Wire.write` are 1, 2, 3. -/
theorem sendFrame_ignores_external_buffer :
    ∃ r,
      I2CDatalink.sendFrame true false Role.master network0 () datalink0
        (FrameRef.external [9, 9, 9]) 3 [] = r ∧
      r.ret = 0 ∧ r.printed = [9, 9, 9] ∧ r.written = [1, 2, 3] ∧
      r.written ≠ (FrameRef.external [9, 9, 9]).bytes datalink0 := by
  refine ⟨_, rfl, rfl, rfl, rfl, ?_⟩
  decide

/-! ## Invariants over sequences of calls -/

/-- One call keeps the invariant "`synchronized` false implies `callerChanged`
true". -/
theorem step_keeps_unsynchronized_implies_callerChanged (p : Platform) (role : Role)
    (s s1 : SmallMailbox) (op : Op) (hstep : step p role s op = some s1)
    (hinv : s.synchronized = false → s.callerChanged = true) :
    s1.synchronized = false → s1.callerChanged = true := by
  cases op with
  | setLong v =>
    cases Option.some.inj hstep
    intro _; rfl
  | trigger =>
    cases Option.some.inj hstep
    intro _; rfl
  | generateMessage buffer size now =>
    simp only [step, Option.map_eq_some'] at hstep
    obtain ⟨g, hg, rfl⟩ := hstep
    rcases generateMessage_cases p s buffer size now g hg with
      ⟨e, -, -⟩ | ⟨e, -, -⟩ | ⟨buf, -, -, -, e⟩
    · rw [e]; exact hinv
    · rw [e]; exact hinv
    · rw [e]; exact hinv
  | busReset =>
    cases Option.some.inj hstep
    unfold SmallMailbox.busReset
    cases hcc : s.callerChanged <;> simp [hcc]
  | handleMessage buffer size =>
    simp only [step, Option.map_eq_some'] at hstep
    obtain ⟨h, hh, rfl⟩ := hstep
    rcases handleMessage_cases p role s buffer size h hh with
      ⟨e, -, -⟩ | ⟨e, -, -⟩ | ⟨b, -, -, ⟨-, hcc, -, e⟩ | ⟨-, -, e⟩ | ⟨-, e⟩ | ⟨-, e⟩⟩
    · rw [e]; exact hinv
    · rw [e]; exact hinv
    · rw [e]; intro _; exact hcc
    · rw [e]; intro hs; simp at hs
    · rw [e]
      intro hs
      apply hinv
      by_cases hv : loadValue p b = s.contents
      · simp [hv] at hs
      · simpa [hv] using hs
    · rw [e]; exact hinv

/-- C19 (reachable-state invariant): in every state reached from a freshly
constructed mailbox by any sequence of `setLong`, `trigger`,
`generateMessage`, `busReset` and `handleMessage` calls, on arbitrary buffers
and in either role, `synchronized` false implies `callerChanged` true: no
reachable state has both flags false. -/
theorem unsynchronized_implies_callerChanged (p : Platform) (role : Role)
    (configFlags : Nat) (changeTrigger0 : Bool) (retryTimer0 : RetryTimer) (observer0 : Bool)
    (ops : List Op) (s1 : SmallMailbox)
    (hrun : run p role (SmallMailbox.construct configFlags changeTrigger0 retryTimer0 observer0)
      ops = some s1) :
    (s1.synchronized = false → s1.callerChanged = true) ∧
    ¬ (s1.synchronized = false ∧ s1.callerChanged = false) := by
  have hgen : ∀ (ops : List Op) (s : SmallMailbox),
      (s.synchronized = false → s.callerChanged = true) →
      run p role s ops = some s1 → (s1.synchronized = false → s1.callerChanged = true) := by
    intro ops
    induction ops with
    | nil =>
      intro s hinv hr
      cases Option.some.inj hr
      exact hinv
    | cons op rest ih =>
      intro s hinv hr
      unfold run at hr
      cases hs : step p role s op with
      | none => rw [hs] at hr; simp at hr
      | some s2 =>
        rw [hs] at hr
        exact ih s2 (step_keeps_unsynchronized_implies_callerChanged p role s s2 op hs hinv) hr
  have hfinal := hgen ops _ (fun h => by simp [SmallMailbox.construct] at h) hrun
  refine ⟨hfinal, ?_⟩
  rintro ⟨h1, h2⟩
  rw [hfinal h1] at h2
  exact Bool.noConfusion h2

/-- C19 at a concrete run on a peripheral: a local write, a poll, an
acknowledgment of another value, a bus reset and an unrecognized message leave
the mailbox unsynchronized with `callerChanged` set. -/
theorem unsynchronized_implies_callerChanged_witness :
    ∃ s1,
      run avr Role.slave (SmallMailbox.construct 0 false timer0 true)
        [Op.setLong 7, Op.generateMessage (some [0, 0, 0, 0, 0]) 5 10,
          Op.handleMessage (some (wire avr Command.ACK_VALUE 3)) 5, Op.busReset,
          Op.handleMessage (some [9, 0, 0, 0, 0]) 5] = some s1 ∧
      s1.synchronized = false ∧
      ((s1.synchronized = false → s1.callerChanged = true) ∧
        ¬ (s1.synchronized = false ∧ s1.callerChanged = false)) :=
  ⟨{ flags := 0, contents := 7, synchronized := false, callerChanged := true
     changeTrigger := false
     retryTimer := { pending := true, lastReset := 10, cooldown := 100 }
     observer := true },
    rfl, rfl,
    unsynchronized_implies_callerChanged avr Role.slave 0 false timer0 true
      [Op.setLong 7, Op.generateMessage (some [0, 0, 0, 0, 0]) 5 10,
        Op.handleMessage (some (wire avr Command.ACK_VALUE 3)) 5, Op.busReset,
        Op.handleMessage (some [9, 0, 0, 0, 0]) 5]
      _ rfl⟩

/-- On the master, one call keeps `callerChanged` true, and changes the value
only if it is a `setLong`. -/
theorem step_master_sticky (p : Platform) (s s1 : SmallMailbox) (op : Op)
    (hcc : s.callerChanged = true) (hstep : step p Role.master s op = some s1) :
    s1.callerChanged = true ∧ s1.contents = lastSetLong s.contents [op] := by
  cases op with
  | setLong v =>
    cases Option.some.inj hstep
    exact ⟨rfl, rfl⟩
  | trigger =>
    cases Option.some.inj hstep
    exact ⟨rfl, rfl⟩
  | generateMessage buffer size now =>
    simp only [step, Option.map_eq_some'] at hstep
    obtain ⟨g, hg, rfl⟩ := hstep
    rcases generateMessage_cases p s buffer size now g hg with
      ⟨e, -, -⟩ | ⟨e, -, -⟩ | ⟨buf, -, -, -, e⟩
    · rw [e]; exact ⟨hcc, rfl⟩
    · rw [e]; exact ⟨hcc, rfl⟩
    · rw [e]; exact ⟨hcc, rfl⟩
  | busReset =>
    cases Option.some.inj hstep
    unfold SmallMailbox.busReset
    simp [hcc, lastSetLong]
  | handleMessage buffer size =>
    simp only [step, Option.map_eq_some'] at hstep
    obtain ⟨h, hh, rfl⟩ := hstep
    rcases handleMessage_cases p Role.master s buffer size h hh with
      ⟨e, -, -⟩ | ⟨e, -, -⟩ | ⟨b, -, -, ⟨-, -, -, e⟩ | ⟨-, hn, -⟩ | ⟨-, e⟩ | ⟨-, e⟩⟩
    · rw [e]; exact ⟨hcc, rfl⟩
    · rw [e]; exact ⟨hcc, rfl⟩
    · rw [e]; exact ⟨hcc, rfl⟩
    · exact absurd ⟨hcc, rfl⟩ hn
    · rw [e]; exact ⟨hcc, rfl⟩
    · rw [e]; exact ⟨hcc, rfl⟩

/-- The last `setLong` of a sequence, read off after its first call. -/
theorem lastSetLong_cons (v : Nat) (op : Op) (ops : List Op) :
    lastSetLong v (op :: ops) = lastSetLong (lastSetLong v [op]) ops := by
  cases op <;> rfl

/-- C20 (controller write is sticky): on a controller-role mailbox whose
`callerChanged` is true, after any sequence of `setLong`, `trigger`,
`generateMessage`, `busReset` and `handleMessage` calls on arbitrary buffers
`callerChanged` is still true, and the value is the argument of the last
`setLong` of the sequence, or the initial value if there is none: no inbound
message changes it. -/
theorem controller_write_is_sticky (p : Platform) (s s1 : SmallMailbox) (ops : List Op)
    (hcc : s.callerChanged = true) (hrun : run p Role.master s ops = some s1) :
    s1.callerChanged = true ∧ s1.getLong = lastSetLong s.getLong ops := by
  induction ops generalizing s with
  | nil =>
    cases Option.some.inj hrun
    exact ⟨hcc, rfl⟩
  | cons op rest ih =>
    unfold run at hrun
    cases hs : step p Role.master s op with
    | none => rw [hs] at hrun; simp at hrun
    | some s2 =>
      rw [hs] at hrun
      obtain ⟨h1, h2⟩ := step_master_sticky p s s2 op hcc hs
      obtain ⟨h3, h4⟩ := ih s2 h1 hrun
      refine ⟨h3, ?_⟩
      rw [h4, lastSetLong_cons s.getLong op rest]
      unfold SmallMailbox.getLong
      rw [h2]

/-- C20 at a concrete run: the controller holds 7; a peripheral value 9
arrives twice, around a matching acknowledgment and a bus reset, and the
controller still holds 7 with `callerChanged` set. -/
theorem controller_write_is_sticky_witness :
    ∃ s1,
      (fresh.setLong 7).callerChanged = true ∧
      run avr Role.master (fresh.setLong 7)
        [Op.handleMessage (some (wire avr Command.SEND_VALUE_CHANGE 9)) 5,
          Op.generateMessage (some [0, 0, 0, 0, 0]) 5 10,
          Op.handleMessage (some (wire avr Command.ACK_VALUE 7)) 5, Op.busReset,
          Op.handleMessage (some (wire avr Command.SEND_VALUE 9)) 5] = some s1 ∧
      s1.getLong = 7 ∧
      (s1.callerChanged = true ∧
        s1.getLong = lastSetLong (fresh.setLong 7).getLong
          [Op.handleMessage (some (wire avr Command.SEND_VALUE_CHANGE 9)) 5,
            Op.generateMessage (some [0, 0, 0, 0, 0]) 5 10,
            Op.handleMessage (some (wire avr Command.ACK_VALUE 7)) 5, Op.busReset,
            Op.handleMessage (some (wire avr Command.SEND_VALUE 9)) 5]) :=
  ⟨{ flags := 0, contents := 7, synchronized := false, callerChanged := true
     changeTrigger := false
     retryTimer := { pending := true, lastReset := 10, cooldown := 100 }
     observer := true },
    rfl, rfl, rfl,
    controller_write_is_sticky avr (fresh.setLong 7) _
      [Op.handleMessage (some (wire avr Command.SEND_VALUE_CHANGE 9)) 5,
        Op.generateMessage (some [0, 0, 0, 0, 0]) 5 10,
        Op.handleMessage (some (wire avr Command.ACK_VALUE 7)) 5, Op.busReset,
        Op.handleMessage (some (wire avr Command.SEND_VALUE 9)) 5]
      rfl rfl⟩

/-! ## Replies never chain -/

/-- With at least five bytes behind a non-null pointer, or with the API checks
on and a null pointer, `handleMessage` has a defined result. -/
theorem handleMessage_defined (p : Platform) (role : Role) (s : SmallMailbox)
    (buffer : Option (List Nat)) (size : Int)
    (hnull : buffer = none → p.apiCheck = true)
    (hlen : ∀ buf, buffer = some buf → 5 ≤ buf.length) :
    ∃ h, handleMessage p role s buffer size = some h := by
  unfold handleMessage
  by_cases hA : (p.apiCheck && sizeBelowMessage p size) = true
  · rw [if_pos hA]; exact ⟨_, rfl⟩
  · rw [if_neg hA]
    cases buffer with
    | none =>
      have hapi := hnull rfl
      simp [hapi]
    | some buf =>
      have h5 := hlen buf rfl
      have hl : ¬ buf.length < sizeofSmallMailboxMessage := by
        unfold sizeofSmallMailboxMessage; omega
      simp only [Option.isNone_some, Bool.and_false, Bool.false_eq_true, if_false]
      rw [if_neg hl]
      split_ifs <;> exact ⟨_, rfl⟩

/-- An `ACK_VALUE` message in at least five bytes, handled with any size
argument: the call is rejected with -1 by the size check or returns 0; it
leaves the buffer as it was and does not invoke the observer. -/
theorem handleMessage_ack_any_size (p : Platform) (role : Role) (s : SmallMailbox)
    (buf : List Nat) (size : Int) (hlen : 5 ≤ buf.length)
    (hc : loadCommand buf = Command.ACK_VALUE.code) :
    ∃ h, handleMessage p role s (some buf) size = some h ∧
      (h.ret = 0 ∨ h.ret = -1) ∧ h.buffer = some buf ∧ h.observed = [] ∧
      ((p.apiCheck && sizeBelowMessage p size) = false → h.ret = 0) := by
  obtain ⟨h, hh⟩ := handleMessage_defined p role s (some buf) size (fun e => by cases e)
    (fun b e => by cases e; exact hlen)
  refine ⟨h, hh, ?_⟩
  rcases handleMessage_cases p role s (some buf) size h hh with
    ⟨e, ha, hb⟩ | ⟨-, -, e⟩ | ⟨b, hb, -, ⟨hs, -, -, -⟩ | ⟨hs, -, -⟩ | ⟨-, e⟩ | ⟨hne, -⟩⟩
  · rw [e]
    refine ⟨Or.inr rfl, rfl, rfl, ?_⟩
    intro hf
    simp [ha, hb] at hf
  · cases e
  · cases hb
    rw [hc] at hs
    simp [Command.code] at hs
  · cases hb
    rw [hc] at hs
    simp [Command.code] at hs
  · cases hb
    rw [e]
    exact ⟨Or.inl rfl, rfl, rfl, fun _ => rfl⟩
  · cases hb
    exact absurd hc hne.2.1

/-- C21, refuted as stated: with the API checks on, an inbound `ACK_VALUE`
message handled with the size argument 3 is rejected by the size check; the
call returns -1, not 0. -/
theorem ack_with_small_size_returns_minus_one :
    ∃ h,
      handleMessage avr Role.slave fresh (some (wire avr Command.ACK_VALUE 0)) 3 = some h ∧
      loadCommand (wire avr Command.ACK_VALUE 0) = Command.ACK_VALUE.code ∧
      h.ret = -1 ∧ h.ret ≠ 0 := by
  refine ⟨_, rfl, rfl, rfl, ?_⟩
  decide

/-- C21, amended: for every state, role, buffer and size, `handleMessage` has a
defined result when the buffer is non-null with at least five bytes or the API
checks are on and it is null, and every defined result is one of -1, -2, 0, 1
or 5.  Whenever it returns 5 the command byte left in the buffer is
`ACK_VALUE`.  Whenever the inbound command is `ACK_VALUE` it returns 0, or -1
when the size check rejects the size argument, and it writes nothing.  So a
reply produced by `handleMessage`, fed into the `handleMessage` of any mailbox
in any role with any size argument, is handled with result 0 or -1 and never
produces a further reply; with the reply's own length as the size argument the
result is 0 or -1, and 0 when `size_t` has at least 3 bits. -/
theorem replies_never_chain (p : Platform) (role : Role) (s : SmallMailbox)
    (buffer : Option (List Nat)) (size : Int) :
    ((buffer = none → p.apiCheck = true) → (∀ buf, buffer = some buf → 5 ≤ buf.length) →
      ∃ h, handleMessage p role s buffer size = some h) ∧
    ∀ h, handleMessage p role s buffer size = some h →
      (h.ret = -1 ∨ h.ret = -2 ∨ h.ret = 0 ∨ h.ret = 1 ∨ h.ret = 5) ∧
      (h.ret = 5 →
        ∃ out, h.buffer = some out ∧ 5 ≤ out.length ∧
          loadCommand out = Command.ACK_VALUE.code) ∧
      ((∃ buf, buffer = some buf ∧ loadCommand buf = Command.ACK_VALUE.code) →
        (h.ret = 0 ∨ h.ret = -1) ∧ h.buffer = buffer ∧ h.observed = [] ∧
        ((p.apiCheck && sizeBelowMessage p size) = false → h.ret = 0)) ∧
      (h.ret = 5 →
        ∀ (t : SmallMailbox) (r : Role) (n : Int),
          ∃ h2, handleMessage p r t h.buffer n = some h2 ∧
            (h2.ret = 0 ∨ h2.ret = -1) ∧ h2.buffer = h.buffer ∧ h2.observed = [] ∧
            ((p.apiCheck && sizeBelowMessage p n) = false → h2.ret = 0) ∧
            (n = h.ret → 3 ≤ p.sizeBits → h2.ret = 0)) := by
  refine ⟨handleMessage_defined p role s buffer size, ?_⟩
  intro h hh
  have hreply : h.ret = 5 →
      ∃ out, h.buffer = some out ∧ 5 ≤ out.length ∧
        loadCommand out = Command.ACK_VALUE.code := by
    intro hret
    rcases handleMessage_cases p role s buffer size h hh with
      ⟨e, -, -⟩ | ⟨e, -, -⟩ | ⟨b, -, hb, ⟨-, -, -, e⟩ | ⟨-, -, e⟩ | ⟨-, e⟩ | ⟨-, e⟩⟩
    · rw [e] at hret; simp at hret
    · rw [e] at hret; simp at hret
    · rw [e]
      exact ⟨_, rfl, by simpa [storeCommand] using hb, loadCommand_storeCommand b _ hb⟩
    · rw [e]
      exact ⟨_, rfl, by simpa [storeCommand] using hb, loadCommand_storeCommand b _ hb⟩
    · rw [e] at hret; simp at hret
    · rw [e] at hret; simp at hret
  refine ⟨?_, hreply, ?_, ?_⟩
  · rcases handleMessage_cases p role s buffer size h hh with
      ⟨e, -, -⟩ | ⟨e, -, -⟩ | ⟨b, -, -, ⟨-, -, -, e⟩ | ⟨-, -, e⟩ | ⟨-, e⟩ | ⟨-, e⟩⟩
    · rw [e]; exact Or.inl rfl
    · rw [e]; exact Or.inr (Or.inl rfl)
    · rw [e]; exact Or.inr (Or.inr (Or.inr (Or.inr rfl)))
    · rw [e]; exact Or.inr (Or.inr (Or.inr (Or.inr rfl)))
    · rw [e]; exact Or.inr (Or.inr (Or.inl rfl))
    · rw [e]; exact Or.inr (Or.inr (Or.inr (Or.inl rfl)))
  · rintro ⟨buf, rfl, hc⟩
    rcases handleMessage_cases p role s (some buf) size h hh with
      ⟨e, ha, hb⟩ | ⟨-, -, e⟩ | ⟨b, hb, -, ⟨hs, -, -, -⟩ | ⟨hs, -, -⟩ | ⟨-, e⟩ | ⟨hne, -⟩⟩
    · rw [e]
      refine ⟨Or.inr rfl, rfl, rfl, ?_⟩
      intro hf
      simp [ha, hb] at hf
    · cases e
    · cases hb
      rw [hc] at hs
      simp [Command.code] at hs
    · cases hb
      rw [hc] at hs
      simp [Command.code] at hs
    · cases hb
      rw [e]
      exact ⟨Or.inl rfl, rfl, rfl, fun _ => rfl⟩
    · cases hb
      exact absurd hc hne.2.1
  · intro hret t r n
    obtain ⟨out, hout, hlen, hcmd⟩ := hreply hret
    obtain ⟨h2, hh2, hr, hb, ho, hz⟩ := handleMessage_ack_any_size p r t out n hlen hcmd
    rw [hout]
    refine ⟨h2, hh2, hr, hb, ho, hz, ?_⟩
    intro hn hbits
    apply hz
    have h8 : (2 : Int) ^ 3 ≤ (2 : Int) ^ p.sizeBits :=
      pow_le_pow_right₀ (by decide) hbits
    have hfalse := sizeBelowMessage_false p n (by rw [hn, hret]) (by rw [hn, hret]; omega)
    simp [hfalse]

/-- C21 amended, at a concrete exchange: a peripheral answers
`SEND_VALUE_CHANGE` carrying 9 with a 5-byte reply; that reply, fed with its
own length into a controller mailbox, is handled with result 0 and nothing is
written back. -/
theorem replies_never_chain_witness :
    ∃ h h2,
      handleMessage avr Role.slave fresh
        (some (wire avr Command.SEND_VALUE_CHANGE 9)) 5 = some h ∧
      h.ret = 5 ∧
      handleMessage avr Role.master (fresh.setLong 9) h.buffer h.ret = some h2 ∧
      h2.ret = 0 ∧ h2.buffer = h.buffer ∧ h2.observed = [] := by
  obtain ⟨-, hparts⟩ :=
    replies_never_chain avr Role.slave fresh (some (wire avr Command.SEND_VALUE_CHANGE 9)) 5
  have hh : handleMessage avr Role.slave fresh
      (some (wire avr Command.SEND_VALUE_CHANGE 9)) 5 =
      some { ret := 5
             mailbox := { fresh with contents := 9 }
             buffer := some (wire avr Command.ACK_VALUE 9)
             observed := [true] } := rfl
  obtain ⟨-, -, -, hchain⟩ := hparts _ hh
  obtain ⟨h2, hh2, -, hb, ho, -, hz⟩ := hchain rfl (fresh.setLong 9) Role.master 5
  exact ⟨_, h2, hh, rfl, hh2, hz rfl (by decide), hb, ho⟩

end Makernet
